import Mathlib

/-!
Verification of the KiCAD interchange layer of the Hardware-Tool repository
(`crates/hwt-core/src/kicad.rs`): the S-expression tree model, the parser,
the query utilities, and the three importers (schematic, symbol library, PCB).

Modelling conventions:
* Rust `f64` fields are modelled as `ℚ`; the float parser `str::parse::<f64>`
  is modelled on the plain decimal subset of its grammar (sign, digits,
  optional fractional part), which covers every numeric literal the
  importers' claims touch.
* `uuid::Uuid` values are modelled as their canonical lower-case hyphenated
  string form; `Uuid::parse_str` is modelled on the 36-character hyphenated
  form named by the specification.
* `Uuid::new_v4()` (a fresh random identifier) is modelled by threading an
  arbitrary identifier source `Gen : ℕ → ℕ → String` through the importers;
  each call site draws a value at a fixed coordinate.  All theorems hold for
  every such source, so nothing is assumed about the generated values.
* Rust `Result<T, KicadError>` is `Except KicadError T`; `Option<T>` is
  `Option T`; `Vec<T>` is `List T`.
-/

/-- Import error carrying a message and an (always absent) line number,
from `KicadError` in `kicad.rs`. -/
structure KicadError where
  message : String
  line : Option Nat
deriving Repr, DecidableEq

instance {ε α : Type} [DecidableEq ε] [DecidableEq α] :
    DecidableEq (Except ε α)
  | .error a, .error b =>
    if h : a = b then .isTrue (by rw [h])
    else .isFalse (by intro hh; cases hh; exact h rfl)
  | .error _, .ok _ => .isFalse (by intro h; cases h)
  | .ok _, .error _ => .isFalse (by intro h; cases h)
  | .ok a, .ok b =>
    if h : a = b then .isTrue (by rw [h])
    else .isFalse (by intro hh; cases hh; exact h rfl)

/-- S-expression tree node: a text atom or an ordered list of children,
from `enum SExpr` in `kicad.rs`. -/
inductive SExpr where
  | atom (s : String)
  | list (children : List SExpr)
deriving Repr

namespace SExpr

/-- Decidable equality for `SExpr`, mirroring the derived `PartialEq`. -/
def beq : SExpr → SExpr → Bool
  | .atom a, .atom b => a == b
  | .list xs, .list ys => beqList xs ys
  | _, _ => false
where
  beqList : List SExpr → List SExpr → Bool
  | [], [] => true
  | x :: xs, y :: ys => beq x y && beqList xs ys
  | _, _ => false

theorem beq_eq_true_iff : ∀ a b : SExpr, beq a b = true ↔ a = b := by
  have main : ∀ a : SExpr, (∀ b, beq a b = true ↔ a = b) ∧
      True := by
    intro a
    induction a using SExpr.rec
      (motive_2 := fun l => ∀ l', beq.beqList l l' = true ↔ l = l') with
    | atom s =>
      refine ⟨fun b => ?_, trivial⟩
      cases b <;> simp [beq]
    | list l ih =>
      refine ⟨fun b => ?_, trivial⟩
      cases b with
      | atom s => simp [beq]
      | list l' => simpa [beq] using ih l'
    | nil =>
      rename_i l'; cases l' <;> simp [beq.beqList]
    | cons x xs ihx ihxs =>
      rename_i l'
      cases l' with
      | nil => simp [beq.beqList]
      | cons y ys => simp [beq.beqList, ihx.1 y, ihxs ys]
  exact fun a => (main a).1

instance : DecidableEq SExpr := fun a b =>
  decidable_of_iff (beq a b = true) (beq_eq_true_iff a b)

/-- `SExpr::as_atom`. -/
def as_atom : SExpr → Option String
  | .atom s => some s
  | _ => none

/-- `SExpr::as_list`. -/
def as_list : SExpr → Option (List SExpr)
  | .list l => some l
  | _ => none

/-- `SExpr::tag`: the first element of a list, if it is an atom. -/
def tag (e : SExpr) : Option String :=
  (e.as_list.bind List.head?).bind as_atom

/-- `SExpr::find`: first direct child list whose tag equals `t`. -/
def find (e : SExpr) (t : String) : Option SExpr :=
  e.as_list.bind (List.find? fun c => decide (c.tag = some t))

/-- `SExpr::find_all`: all direct child lists whose tag equals `t`. -/
def find_all (e : SExpr) (t : String) : List SExpr :=
  ((e.as_list.map (List.filter fun c => decide (c.tag = some t)))).getD []

/-- `SExpr::get`: nth element of a list. -/
def get (e : SExpr) (i : Nat) : Option SExpr :=
  e.as_list.bind fun l => l.get? i

/-- `SExpr::get_atom`: nth element as an atom string. -/
def get_atom (e : SExpr) (i : Nat) : Option String :=
  (e.get i).bind as_atom

/-- Digit run to a natural number. -/
def digitsVal (cs : List Char) : Nat :=
  cs.foldl (fun n c => 10 * n + (c.toNat - '0'.toNat)) 0

/-- Model of Rust `str::parse::<f64>()` on the plain decimal subset of its
grammar: optional sign, an integer part and/or a fractional part separated
by a single dot, at least one digit overall.  Exponent, infinity and NaN
forms are outside the modelled subset. -/
def parseF64 (s : String) : Option ℚ :=
  let cs := s.data
  let signAndRest : ℚ × List Char :=
    match cs with
    | '-' :: r => (-1, r)
    | '+' :: r => (1, r)
    | r => (1, r)
  let sign := signAndRest.1
  let rest := signAndRest.2
  let intPart := rest.takeWhile Char.isDigit
  let rest2 := rest.drop intPart.length
  match rest2 with
  | [] =>
    if intPart.isEmpty then none
    else some (sign * (digitsVal intPart : ℚ))
  | '.' :: frac =>
    if frac.all Char.isDigit ∧ ¬(intPart.isEmpty ∧ frac.isEmpty) then
      some (sign * ((digitsVal intPart : ℚ) +
        (digitsVal frac : ℚ) / ((10 : ℚ) ^ frac.length)))
    else none
  | _ => none

/-- `SExpr::get_f64`: nth element parsed as a number. -/
def get_f64 (e : SExpr) (i : Nat) : Option ℚ :=
  (e.get_atom i).bind parseF64

/-- The scan loop of `SExpr::property`.  The `?` operators inside the Rust
loop body return `None` from the whole function, so a child that is an empty
list, or a list whose first element is not an atom, aborts the scan; an atom
child is skipped by the `if let` and the scan continues. -/
def propertyLoop (key : String) : List SExpr → Option String
  | [] => none
  | c :: rest =>
    match c.as_list with
    | none => propertyLoop key rest
    | some cl =>
      match cl.head? with
      | none => none
      | some h =>
        match h.as_atom with
        | none => none
        | some a =>
          if a = key then (cl.get? 1).bind as_atom
          else propertyLoop key rest

/-- `SExpr::property`: key/value lookup over direct children. -/
def property (e : SExpr) (key : String) : Option String :=
  e.as_list.bind fun l => propertyLoop key l

end SExpr

/-! The parser (`SExprParser` in `kicad.rs`), on the character list of the
input.  The Rust struct keeps `(input, pos)`; the embedding passes the
remaining character list instead, which is the same cursor.  The mutual
recursion of `parse_expr`/`parse_list` is bounded by a fuel argument; the
top entry point supplies more fuel than any input can consume, and every
theorem below either evaluates on a concrete input or takes the parse
result as a hypothesis, so the fuel never shows through. -/

/-- Characters that terminate a bare symbol token. -/
def isTokenEnd (c : Char) : Bool :=
  c.isWhitespace || c == '(' || c == ')'

/-- Body of `SExprParser::parse_string`, after the opening quote: collects
characters up to the closing quote, resolving backslash escapes; end of
input terminates the string without error, and a trailing lone backslash is
dropped, exactly as the Rust loop does. -/
def parseStringBody : List Char → String → String × List Char
  | [], acc => (acc, [])
  | '"' :: rest, acc => (acc, rest)
  | '\\' :: c :: rest, acc =>
    let esc : Char :=
      if c = 'n' then '\n' else if c = 't' then '\t'
      else if c = 'r' then '\r' else c
    parseStringBody rest (acc.push esc)
  | ['\\'], acc => (acc, [])
  | c :: rest, acc => parseStringBody rest (acc.push c)

/-- `SExprParser::parse_atom`: a quoted string or a bare symbol; an empty
bare symbol is a parse error. -/
def parseAtom (cs : List Char) : Except KicadError (SExpr × List Char) :=
  match cs with
  | '"' :: rest =>
    let r := parseStringBody rest ""
    .ok (.atom r.1, r.2)
  | _ =>
    let tok := cs.takeWhile (fun c => !isTokenEnd c)
    if tok.isEmpty then
      .error ⟨"Empty symbol", none⟩
    else
      .ok (.atom (String.mk tok), cs.drop tok.length)

mutual

/-- `SExprParser::parse_expr`: skip whitespace, then a list or an atom. -/
def parseExpr : Nat → List Char → Except KicadError (SExpr × List Char)
  | 0, _ => .error ⟨"Unexpected end of input in list", none⟩
  | fuel + 1, cs =>
    let cs := cs.dropWhile Char.isWhitespace
    match cs with
    | '(' :: rest => parseListItems fuel rest []
    | _ => parseAtom cs

/-- The loop of `SExprParser::parse_list`, after the opening parenthesis:
skip whitespace, close on `)`, fail at end of input, else parse one item
and continue. -/
def parseListItems : Nat → List Char → List SExpr →
    Except KicadError (SExpr × List Char)
  | 0, _, _ => .error ⟨"Unexpected end of input in list", none⟩
  | fuel + 1, cs, acc =>
    let cs := cs.dropWhile Char.isWhitespace
    match cs with
    | [] => .error ⟨"Unexpected end of input in list", none⟩
    | ')' :: rest => .ok (.list acc, rest)
    | _ =>
      match parseExpr fuel cs with
      | .error e => .error e
      | .ok (e, rest) => parseListItems fuel rest (acc ++ [e])

end

/-- Run the parser from the start of the input with ample fuel, returning
the first expression together with the unconsumed remainder. -/
def parseRun (cs : List Char) : Except KicadError (SExpr × List Char) :=
  parseExpr (2 * cs.length + 2) cs

/-- `SExprParser::parse`: parse the entire input, producing one root
expression.  The unconsumed remainder is discarded without any check. -/
def SExprParser.parse (content : String) : Except KicadError SExpr :=
  (parseRun content.data).map Prod.fst

/-! Output data model.  Types that exist under `src/` (`geometry.rs`,
`units.rs`, `layout.rs`, `component.rs`) are translated from those files.
The schematic record types and the placed-footprint/pad types are declared
in modules of this repository whose sources are not present (`schematic.rs`
and the `layout.rs` revision with placed components); those are modelled
from the specification and from their construction sites in `kicad.rs`. -/

/-- Length unit, from `units.rs`. -/
inductive LengthUnit where
  | mm | mil | um | nm | inch
deriving Repr, DecidableEq

/-- 2D point, from `geometry.rs`. -/
structure Point2D where
  x : ℚ
  y : ℚ
deriving Repr, DecidableEq

/-- `Point2D::new`. -/
def Point2D.new (x y : ℚ) : Point2D := ⟨x, y⟩

/-- Position with optional Z and unit, from `geometry.rs`. -/
structure Position where
  x : ℚ
  y : ℚ
  z : Option ℚ
  unit : LengthUnit
deriving Repr, DecidableEq

/-- Layer class, from `layout.rs`. -/
inductive LayerType where
  | copper | dielectric | solderMask | silkscreen | paste | courtyard
  | fabrication
deriving Repr, DecidableEq

/-- A layer in the stack, from `layout.rs`. -/
structure Layer where
  name : String
  layer_type : LayerType
  thickness : Option ℚ
  material : Option String
  visible : Bool
deriving Repr, DecidableEq

/-- Modelled from the spec: `Layer::new` is declared in the `layout`
module revision that is not under `src/`; it fills the optional fields
with their serde defaults (none, none, visible). -/
def Layer.new (name : String) (t : LayerType) : Layer :=
  ⟨name, t, none, none, true⟩

/-- Board outline class, from `layout.rs`. -/
inductive OutlineType where
  | rectangle | polygon | circle
deriving Repr, DecidableEq

/-- Board outline, from `layout.rs`. -/
structure Outline where
  outline_type : OutlineType
  points : List Point2D
  width : Option ℚ
  height : Option ℚ
  unit : LengthUnit
deriving Repr, DecidableEq

/-- A trace segment, from `layout.rs`. -/
structure Trace where
  net : String
  layer : String
  start : Position
  stop : Position
  width : ℚ
  unit : LengthUnit
deriving Repr, DecidableEq

/-- Via class, from `layout.rs`. -/
inductive ViaType where
  | through | blind | buried | micro
deriving Repr, DecidableEq

/-- A via, from `layout.rs`. -/
structure Via where
  net : String
  position : Position
  via_type : ViaType
  drill : ℚ
  pad : ℚ
  start_layer : Option String
  end_layer : Option String
  unit : LengthUnit
deriving Repr, DecidableEq

/-- Zone fill class, from `layout.rs`. -/
inductive ZoneFillType where
  | solid | hatched | unfilled
deriving Repr, DecidableEq

/-- A copper zone, from `layout.rs` (`None` fill is rendered here as
`unfilled`). -/
structure Zone where
  net : String
  layer : String
  points : List Point2D
  fill_type : ZoneFillType
  clearance : Option ℚ
  min_width : Option ℚ
  unit : LengthUnit
deriving Repr, DecidableEq

/-- Pad electrical class, from the `layout` module; the variants are those
matched in `KicadPcbImporter::parse_pad`. -/
inductive PadType where
  | thruHole | smd | npth | connect
deriving Repr, DecidableEq

/-- Pad shape, from the `layout` module; the variants are those matched in
`KicadPcbImporter::parse_pad`. -/
inductive PadShape where
  | circle | rect | oval | roundRect | trapezoid | custom
deriving Repr, DecidableEq

/-- Modelled from the spec: a pad record as constructed in
`KicadPcbImporter::parse_pad`; the declaring `layout.rs` revision is not
under `src/`. -/
structure Pad where
  number : String
  name : Option String
  pad_type : PadType
  shape : PadShape
  position : Point2D
  size : ℚ × ℚ
  drill : ℚ
  net : Option String
  layers : List String
deriving Repr, DecidableEq

/-- Side of the board a footprint sits on. -/
inductive ComponentLayer where
  | top | bottom
deriving Repr, DecidableEq

/-- Modelled from the spec: a placed footprint as constructed in
`KicadPcbImporter::parse_footprint`; the declaring `layout.rs` revision is
not under `src/`.  The identifier is always freshly generated there. -/
structure PlacedComponent where
  id : String
  reference : String
  value : String
  footprint : String
  position : Position
  rotation : ℚ
  layer : ComponentLayer
  pads : List Pad
  locked : Bool
deriving Repr, DecidableEq

/-- The layout produced by the PCB importer.  Fields as in `layout.rs`,
plus the placed-component collection used by `kicad.rs` (declared in the
`layout.rs` revision not under `src/`). -/
structure Layout where
  outline : Option Outline
  layers : List Layer
  components : List PlacedComponent
  traces : List Trace
  vias : List Via
  zones : List Zone
deriving Repr, DecidableEq

/-- Modelled from the spec: `Layout::new` starts from the empty layout. -/
def Layout.new : Layout := ⟨none, [], [], [], [], []⟩

/-- Modelled from the spec: `Layout::default_pcb_layers` is the fixed
default PCB layer set used when the document declares no layer block.  Its
exact entries are not named by the specification; the standard two-copper
stack stands in for it, and no theorem below depends on the entries. -/
def Layout.default_pcb_layers : List Layer :=
  [Layer.new "F.Cu" .copper, Layer.new "B.Cu" .copper]

/-! Identifiers.  `uuid::Uuid` values are modelled as canonical lower-case
hyphenated strings; randomness of `Uuid::new_v4()` is modelled by an
arbitrary identifier source threaded through each importer. -/

/-- Hexadecimal digit test. -/
def isHexDig (c : Char) : Bool :=
  c.isDigit || ('a' ≤ c && c ≤ 'f') || ('A' ≤ c && c ≤ 'F')

/-- Model of `Uuid::parse_str` on the 36-character hyphenated form: four
hyphens at the fixed offsets, hexadecimal digits everywhere else; the value
is kept in canonical lower case. -/
def uuidParse (s : String) : Option String :=
  let cs := s.data
  if cs.length = 36 ∧
      (List.range 36).all (fun i =>
        if i = 8 ∨ i = 13 ∨ i = 18 ∨ i = 23 then
          (cs.get? i).any (· = '-')
        else
          (cs.get? i).any isHexDig) then
    some s.toLower
  else
    none

/-- An identifier source standing in for `Uuid::new_v4()`: coordinate
`(k, i)` is the fresh identifier for the `i`-th element of the importer's
`k`-th generation site.  Every theorem quantifies over the source. -/
def Gen : Type := Nat → Nat → String

/-- Map an indexed function over a list, from a starting index. -/
def mapWithIdx (f : Nat → α → β) : Nat → List α → List β
  | _, [] => []
  | i, a :: t => f i a :: mapWithIdx f (i + 1) t

/-- Keep the payloads of the successful results, dropping errors: the
`if let Ok(x) = ... { push(x) }` pattern of the importers. -/
def collectOk (l : List (Except KicadError α)) : List α :=
  l.filterMap Except.toOption

/-- The identifier a source element explicitly supplies: its `uuid` child's
first argument, when that parses as a well-formed identifier.  This is the
shared `find("uuid") → get_atom(1) → Uuid::parse_str` chain of the
schematic element parsers. -/
def suppliedUuid (e : SExpr) : Option String :=
  ((e.find "uuid").bind (fun u => u.get_atom 1)).bind uuidParse

/-- The `(x, y, angle)` triple read from an `at` child, each coordinate
defaulting to `0.0`; `(0, 0, 0)` when there is no `at` child. -/
def atTriple (e : SExpr) : ℚ × ℚ × ℚ :=
  match e.find "at" with
  | some a => ((a.get_f64 1).getD 0, (a.get_f64 2).getD 0, (a.get_f64 3).getD 0)
  | none => (0, 0, 0)

/-- The `(x, y)` pair read from an `at` child. -/
def atPair (e : SExpr) : ℚ × ℚ :=
  match e.find "at" with
  | some a => ((a.get_f64 1).getD 0, (a.get_f64 2).getD 0)
  | none => (0, 0)

/-- Substring search: does `pat` occur contiguously in `hay`?  Models Rust
`str::contains` on a string pattern. -/
def startsWith : List Char → List Char → Bool
  | _, [] => true
  | [], _ :: _ => false
  | h :: t, p :: ps => h = p && startsWith t ps

/-- See `startsWith`; full substring occurrence test. -/
def hasSub : List Char → List Char → Bool
  | [], pat => startsWith [] pat
  | h :: t, pat => startsWith (h :: t) pat || hasSub t pat

/-- Rust `str::contains` for string patterns. -/
def strContains (hay pat : String) : Bool :=
  hasSub hay.data pat.data

/-- Model of Rust unsigned-integer `str::parse` (for the symbol `unit`
field): digits only, non-empty. -/
def parseNatStr (s : String) : Option Nat :=
  if s.data ≠ [] ∧ s.data.all Char.isDigit then some (SExpr.digitsVal s.data)
  else none

/-! Schematic record types.  Modelled from the spec: they are declared in
`crate::schematic`, whose source is not under `src/`; the fields are the
ones constructed in `kicad.rs` and described in §3 of the specification. -/

/-- Net-label flavour. -/
inductive LabelType where
  | local | global | hierarchical
deriving Repr, DecidableEq

/-- Power-symbol display style. -/
inductive PowerSymbolStyle where
  | ground | earth | bar
deriving Repr, DecidableEq

/-- Modelled from the spec: a symbol pin on a placed symbol; the importer
always leaves this collection empty, so its fields are not modelled. -/
structure SymbolPin where
deriving Repr, DecidableEq

/-- Modelled from the spec: a symbol property record; the importer always
leaves this collection empty, so its fields are not modelled. -/
structure SymbolProperty where
deriving Repr, DecidableEq

/-- A symbol placed on a schematic sheet. -/
structure PlacedSymbol where
  id : String
  reference : String
  value : String
  library : String
  symbol_name : String
  position : Point2D
  rotation : ℚ
  mirror_x : Bool
  mirror_y : Bool
  unit : Nat
  pins : List SymbolPin
  properties : List SymbolProperty
deriving Repr, DecidableEq

/-- A wire on a schematic sheet. -/
structure Wire where
  id : String
  start : Point2D
  stop : Point2D
  net_name : Option String
deriving Repr, DecidableEq

/-- A net label. -/
structure NetLabel where
  id : String
  name : String
  position : Point2D
  label_type : LabelType
  rotation : ℚ
deriving Repr, DecidableEq

/-- A junction. -/
structure Junction where
  id : String
  position : Point2D
deriving Repr, DecidableEq

/-- A no-connect marker. -/
structure NoConnect where
  id : String
  position : Point2D
deriving Repr, DecidableEq

/-- A power symbol. -/
structure PowerSymbol where
  id : String
  net_name : String
  position : Point2D
  rotation : ℚ
  style : PowerSymbolStyle
deriving Repr, DecidableEq

/-- One straight segment of a bus. -/
structure BusSegment where
  start : Point2D
  stop : Point2D
deriving Repr, DecidableEq

/-- A bus. -/
structure Bus where
  id : String
  name : String
  segments : List BusSegment
deriving Repr, DecidableEq

/-- A schematic sheet. -/
structure SchematicSheet where
  id : String
  name : String
  symbols : List PlacedSymbol
  wires : List Wire
  labels : List NetLabel
  junctions : List Junction
  no_connects : List NoConnect
  power_symbols : List PowerSymbol
  buses : List Bus
deriving Repr, DecidableEq

/-- Modelled from the spec: `SchematicSheet::new` (declared in
`crate::schematic`, not under `src/`) makes an empty sheet with the given
name and a freshly generated identifier, here drawn from the source. -/
def SchematicSheet.new (name fresh : String) : SchematicSheet :=
  ⟨fresh, name, [], [], [], [], [], [], []⟩

namespace KicadSchematicImporter

/-- The scan loop of `KicadSchematicImporter::get_property`: the first
`property` child whose name argument matches decides the result, even when
it carries no value argument. -/
def get_propertyLoop (name : String) : List SExpr → Option String
  | [] => none
  | p :: rest =>
    if p.get_atom 1 = some name then p.get_atom 2
    else get_propertyLoop name rest

/-- `KicadSchematicImporter::get_property`. -/
def get_property (e : SExpr) (name : String) : Option String :=
  get_propertyLoop name (e.find_all "property")

/-- Split a composite library id on its first colon, from
`KicadSchematicImporter::parse_symbol`. -/
def splitLibId (s : String) : String × String :=
  match s.data.findIdx? (· = ':') with
  | some i => (String.mk (s.data.take i), String.mk (s.data.drop (i + 1)))
  | none => ("unknown", s)

/-- `KicadSchematicImporter::parse_symbol`. -/
def parse_symbol (fresh : String) (e : SExpr) :
    Except KicadError PlacedSymbol :=
  let lib_id := ((e.find "lib_id").bind (fun l => l.get_atom 1)).getD
    "unknown:unknown"
  let ls := splitLibId lib_id
  let uuid := (suppliedUuid e).getD fresh
  let t := atTriple e
  let mirror_x := ((e.find "mirror").map
    (fun m => m.get_atom 1 == some "x")).getD false
  let mirror_y := ((e.find "mirror").map
    (fun m => m.get_atom 1 == some "y")).getD false
  let reference := (get_property e "Reference").getD "U?"
  let value := (get_property e "Value").getD ""
  let unit := (((e.find "unit").bind (fun u => u.get_atom 1)).bind
    parseNatStr).getD 1
  .ok {
    id := uuid, reference, value, library := ls.1, symbol_name := ls.2,
    position := Point2D.new t.1 t.2.1, rotation := t.2.2,
    mirror_x, mirror_y, unit, pins := [], properties := [] }

/-- `KicadSchematicImporter::parse_wire`: a two-point polyline; fewer than
two points leaves both endpoints at the origin. -/
def parse_wire (fresh : String) (e : SExpr) : Except KicadError Wire :=
  let uuid := (suppliedUuid e).getD fresh
  let pts : Point2D × Point2D :=
    match e.find "pts" with
    | some pts =>
      match pts.find_all "xy" with
      | a :: b :: _ =>
        (Point2D.new ((a.get_f64 1).getD 0) ((a.get_f64 2).getD 0),
         Point2D.new ((b.get_f64 1).getD 0) ((b.get_f64 2).getD 0))
      | _ => (Point2D.new 0 0, Point2D.new 0 0)
    | none => (Point2D.new 0 0, Point2D.new 0 0)
  .ok { id := uuid, start := pts.1, stop := pts.2, net_name := none }

/-- `KicadSchematicImporter::parse_label`. -/
def parse_label (fresh : String) (e : SExpr) (label_type : LabelType) :
    Except KicadError NetLabel :=
  let name := (e.get_atom 1).getD ""
  let uuid := (suppliedUuid e).getD fresh
  let t := atTriple e
  .ok { id := uuid, name, position := Point2D.new t.1 t.2.1, label_type,
        rotation := t.2.2 }

/-- `KicadSchematicImporter::parse_junction`. -/
def parse_junction (fresh : String) (e : SExpr) :
    Except KicadError Junction :=
  let uuid := (suppliedUuid e).getD fresh
  let p := atPair e
  .ok { id := uuid, position := Point2D.new p.1 p.2 }

/-- `KicadSchematicImporter::parse_no_connect`. -/
def parse_no_connect (fresh : String) (e : SExpr) :
    Except KicadError NoConnect :=
  let uuid := (suppliedUuid e).getD fresh
  let p := atPair e
  .ok { id := uuid, position := Point2D.new p.1 p.2 }

/-- `KicadSchematicImporter::is_power_symbol`: library id containing
`"power"` case-insensitively, or any `property` child whose name argument
is the token `power`. -/
def is_power_symbol (e : SExpr) : Bool :=
  (match (e.find "lib_id").bind (fun l => l.get_atom 1) with
   | some lib_id => strContains lib_id.toLower "power"
   | none => false) ||
  (e.find_all "property").any (fun p => p.get_atom 1 == some "power")

/-- The style rule of `KicadSchematicImporter::parse_power_symbol`. -/
def powerStyleOf (net_name : String) : PowerSymbolStyle :=
  if strContains net_name.toUpper "GND" then .ground
  else if strContains net_name.toUpper "EARTH" then .earth
  else .bar

/-- `KicadSchematicImporter::parse_power_symbol`. -/
def parse_power_symbol (fresh : String) (e : SExpr) :
    Except KicadError PowerSymbol :=
  let uuid := (suppliedUuid e).getD fresh
  let net_name := (get_property e "Value").getD "VCC"
  let t := atTriple e
  .ok { id := uuid, net_name, position := Point2D.new t.1 t.2.1,
        rotation := t.2.2, style := powerStyleOf net_name }

/-- Consecutive point pairs, from the `windows(2)` walk of
`KicadSchematicImporter::parse_bus`. -/
def windowPairs : List α → List (α × α)
  | a :: b :: t => (a, b) :: windowPairs (b :: t)
  | _ => []

/-- `KicadSchematicImporter::parse_bus`. -/
def parse_bus (fresh : String) (e : SExpr) : Except KicadError Bus :=
  let uuid := (suppliedUuid e).getD fresh
  let segments :=
    match e.find "pts" with
    | some pts =>
      (windowPairs (pts.find_all "xy")).map (fun w =>
        { start := Point2D.new ((w.1.get_f64 1).getD 0)
            ((w.1.get_f64 2).getD 0),
          stop := Point2D.new ((w.2.get_f64 1).getD 0)
            ((w.2.get_f64 2).getD 0) : BusSegment })
    | none => []
  .ok { id := uuid, name := "", segments }

/-- `KicadSchematicImporter::import_from_string`: parse, require the
`kicad_sch` root tag, then extract every element category; each element
that fails its own extraction is dropped (none of the schematic element
parsers can actually fail). -/
def import_from_string (gen : Gen) (content : String) :
    Except KicadError SchematicSheet :=
  match SExprParser.parse content with
  | .error e => .error e
  | .ok expr =>
    if expr.tag ≠ some "kicad_sch" then
      .error ⟨"Not a valid KiCAD schematic file", none⟩
    else
      let sheet0 := SchematicSheet.new "Imported" (gen 0 0)
      let docId :=
        match ((expr.find "uuid").bind (fun u => u.get_atom 1)).bind
            uuidParse with
        | some u => u
        | none => sheet0.id
      .ok {
        id := docId, name := sheet0.name,
        symbols := collectOk (mapWithIdx
          (fun i se => parse_symbol (gen 1 i) se) 0
          (expr.find_all "symbol")),
        wires := collectOk (mapWithIdx
          (fun i we => parse_wire (gen 2 i) we) 0
          (expr.find_all "wire")),
        labels :=
          collectOk (mapWithIdx
            (fun i le => parse_label (gen 3 i) le .local) 0
            (expr.find_all "label")) ++
          collectOk (mapWithIdx
            (fun i le => parse_label (gen 4 i) le .global) 0
            (expr.find_all "global_label")) ++
          collectOk (mapWithIdx
            (fun i le => parse_label (gen 5 i) le .hierarchical) 0
            (expr.find_all "hierarchical_label")),
        junctions := collectOk (mapWithIdx
          (fun i je => parse_junction (gen 6 i) je) 0
          (expr.find_all "junction")),
        no_connects := collectOk (mapWithIdx
          (fun i ne => parse_no_connect (gen 7 i) ne) 0
          (expr.find_all "no_connect")),
        power_symbols := collectOk (mapWithIdx
          (fun i pe => parse_power_symbol (gen 8 i) pe) 0
          ((expr.find_all "symbol").filter is_power_symbol)),
        buses := collectOk (mapWithIdx
          (fun i be => parse_bus (gen 9 i) be) 0
          (expr.find_all "bus")) }

end KicadSchematicImporter

/-! Symbol-library importer.  The `Component`/`Pin` types come from
`component.rs` (under `src/`). -/

/-- Pin electrical class, from `component.rs`. -/
inductive PinType where
  | input | output | bidirectional | powerInput | powerOutput | ground
  | passive | noConnect | openCollector | openEmitter | triState
deriving Repr, DecidableEq

/-- A pin on a component, from `component.rs`. -/
structure Pin where
  id : String
  name : String
  net : Option String
  pin_type : PinType
deriving Repr, DecidableEq

/-- A reusable component, from `component.rs`.  The `HashMap<String,
String>` property map is modelled as an association list with overwriting
insert. -/
structure Component where
  id : String
  component_type : String
  reference : String
  value : Option String
  symbol : Option String
  footprint : Option String
  position : Position
  rotation : ℚ
  pins : List Pin
  properties : List (String × String)
deriving Repr, DecidableEq

/-- `Component::new`: reference and type set, identifier freshly generated
(`Uuid::new_v4`, drawn here from the source), all else default. -/
def Component.new (reference component_type fresh : String) : Component :=
  { id := fresh, component_type, reference, value := none, symbol := none,
    footprint := none,
    position := { x := 0, y := 0, z := none, unit := .mm }, rotation := 0,
    pins := [], properties := [] }

/-- `HashMap::insert`: overwrite the binding when the key is present,
otherwise append it. -/
def upsert (k v : String) (m : List (String × String)) :
    List (String × String) :=
  if m.any (fun p => p.1 == k) then
    m.map (fun p => if p.1 = k then (k, v) else p)
  else
    m ++ [(k, v)]

namespace KicadSymbolLibImporter

mutual

/-- `KicadSymbolLibImporter::find_all_recursive`: every descendant list
with the given tag, in pre-order (each matching node before its own
matching descendants, siblings in source order). -/
def find_all_recursive : SExpr → String → List SExpr
  | .atom _, _ => []
  | .list l, t => farList l t

/-- Sibling walk of `find_all_recursive`. -/
def farList : List SExpr → String → List SExpr
  | [], _ => []
  | item :: rest, t =>
    (if item.tag = some t then [item] else []) ++
      find_all_recursive item t ++ farList rest t

end

/-- The pin-type token vocabulary of `KicadSymbolLibImporter::parse_pin`;
every unrecognized token maps to passive. -/
def pinTypeOf (s : String) : PinType :=
  if s = "input" then .input
  else if s = "output" then .output
  else if s = "bidirectional" then .bidirectional
  else if s = "power_in" then .powerInput
  else if s = "power_out" then .powerOutput
  else if s = "passive" then .passive
  else if s = "no_connect" then .noConnect
  else if s = "open_collector" then .openCollector
  else if s = "open_emitter" then .openEmitter
  else if s = "tri_state" then .triState
  else .passive

/-- `KicadSymbolLibImporter::parse_pin`. -/
def parse_pin (e : SExpr) : Except KicadError Pin :=
  let pin_type := pinTypeOf ((e.get_atom 1).getD "passive")
  let name := ((e.find "name").bind (fun n => n.get_atom 1)).getD "~"
  let number := ((e.find "number").bind (fun n => n.get_atom 1)).getD "1"
  .ok { id := number, name, net := none, pin_type }

/-- `KicadSymbolLibImporter::parse_symbol`. -/
def parse_symbol (fresh : String) (e : SExpr) :
    Except KicadError Component :=
  let name := (e.get_atom 1).getD "Unknown"
  let c0 := Component.new name name fresh
  let pins := collectOk ((find_all_recursive e "pin").map parse_pin)
  let properties := (e.find_all "property").foldl
    (fun m p =>
      match p.get_atom 1, p.get_atom 2 with
      | some k, some v => upsert k v m
      | _, _ => m)
    c0.properties
  .ok { c0 with pins := c0.pins ++ pins, properties }

/-- `KicadSymbolLibImporter::import_from_string`. -/
def import_from_string (gen : Gen) (content : String) :
    Except KicadError (List Component) :=
  match SExprParser.parse content with
  | .error e => .error e
  | .ok expr =>
    if expr.tag ≠ some "kicad_symbol_lib" then
      .error ⟨"Not a valid KiCAD symbol library file", none⟩
    else
      .ok (collectOk (mapWithIdx
        (fun i se => parse_symbol (gen 1 i) se) 0
        (expr.find_all "symbol")))

end KicadSymbolLibImporter

namespace KicadPcbImporter

/-- The layer-class token mapping of `KicadPcbImporter::parse_layers`. -/
def layerTypeOf (s : String) : LayerType :=
  if s = "signal" ∨ s = "power" then .copper
  else if s = "user" then .fabrication
  else .fabrication

/-- The five standard non-copper layers appended after the declared
stack. -/
def standard_layers : List (String × LayerType) :=
  [("F.SilkS", .silkscreen), ("B.SilkS", .silkscreen),
   ("F.Mask", .solderMask), ("B.Mask", .solderMask),
   ("Edge.Cuts", .fabrication)]

/-- `KicadPcbImporter::parse_layers`: entries of the layer block (index
ignored, name, class token), then the standard non-copper layers appended
when no declared layer already bears their name. -/
def parse_layers (e : SExpr) : Except KicadError (List Layer) :=
  let base :=
    match e.as_list with
    | none => []
    | some l =>
      (l.drop 1).filterMap (fun item =>
        match item.as_list with
        | none => none
        | some ll =>
          if 3 ≤ ll.length then
            some (Layer.new
              (((ll.get? 1).bind SExpr.as_atom).getD "Unknown")
              (layerTypeOf (((ll.get? 2).bind SExpr.as_atom).getD
                "signal")))
          else none)
  .ok (standard_layers.foldl
    (fun acc nt =>
      if acc.any (fun l => l.name = nt.1) then acc else acc ++ [Layer.new nt.1 nt.2])
    base)

/-- `KicadPcbImporter::parse_pad`. -/
def parse_pad (e : SExpr) : Except KicadError Pad :=
  let number := (e.get_atom 1).getD "1"
  let pad_type_str := (e.get_atom 2).getD "smd"
  let shape_str := (e.get_atom 3).getD "rect"
  let pad_type : PadType :=
    if pad_type_str = "thru_hole" then .thruHole
    else if pad_type_str = "smd" then .smd
    else if pad_type_str = "np_thru_hole" then .npth
    else if pad_type_str = "connect" then .connect
    else .smd
  let shape : PadShape :=
    if shape_str = "circle" then .circle
    else if shape_str = "rect" then .rect
    else if shape_str = "oval" then .oval
    else if shape_str = "roundrect" then .roundRect
    else if shape_str = "trapezoid" then .trapezoid
    else if shape_str = "custom" then .custom
    else .rect
  let p := atPair e
  let size : ℚ × ℚ :=
    match e.find "size" with
    | some se => ((se.get_f64 1).getD 1, (se.get_f64 2).getD 1)
    | none => (1, 1)
  let drill := ((e.find "drill").bind (fun d => d.get_f64 1)).getD 0
  let net := (e.find "net").bind (fun n => n.get_atom 2)
  .ok { number, name := none, pad_type, shape,
        position := Point2D.new p.1 p.2, size, drill, net, layers := [] }

/-- `KicadPcbImporter::parse_footprint`.  The identifier is freshly
generated unconditionally (`id: Uuid::new_v4()`); no `uuid` child is
consulted. -/
def parse_footprint (fresh : String) (e : SExpr) :
    Except KicadError PlacedComponent :=
  let footprint_name := (e.get_atom 1).getD "Unknown"
  let t := atTriple e
  let layer := ((e.find "layer").bind (fun l => l.get_atom 1)).getD "F.Cu"
  let component_layer : ComponentLayer :=
    if startsWith layer.data "B.".data then .bottom else .top
  let reference := (((e.find_all "fp_text").find?
      (fun fe => fe.get_atom 1 == some "reference")).bind
      (fun fe => fe.get_atom 2)).getD "U?"
  let value := (((e.find_all "fp_text").find?
      (fun fe => fe.get_atom 1 == some "value")).bind
      (fun fe => fe.get_atom 2)).getD ""
  let pads := collectOk ((e.find_all "pad").map parse_pad)
  .ok { id := fresh, reference, value, footprint := footprint_name,
        position := { x := t.1, y := t.2.1, z := none, unit := .mm },
        rotation := t.2.2, layer := component_layer, pads,
        locked := false }

/-- `KicadPcbImporter::parse_segment`: `start` and `end` children are
required (their absence is this importer's per-element hard failure);
width defaults to 0.25, layer to front copper, net to the empty string. -/
def parse_segment (e : SExpr) : Except KicadError Trace :=
  match e.find "start" with
  | none => .error ⟨"Segment missing start point", none⟩
  | some se =>
    match e.find "end" with
    | none => .error ⟨"Segment missing end point", none⟩
    | some ee =>
      let start : Position :=
        { x := (se.get_f64 1).getD 0, y := (se.get_f64 2).getD 0,
          z := none, unit := .mm }
      let stop : Position :=
        { x := (ee.get_f64 1).getD 0, y := (ee.get_f64 2).getD 0,
          z := none, unit := .mm }
      let width := ((e.find "width").bind (fun w => w.get_f64 1)).getD 0.25
      let layer := ((e.find "layer").bind (fun l => l.get_atom 1)).getD
        "F.Cu"
      let net := ((e.find "net").bind (fun n => n.get_atom 1)).getD ""
      .ok { net, layer, start, stop, width, unit := .mm }

/-- The declared layer span of a via: the atoms of its `layers` child,
skipping the tag. -/
def viaLayers (e : SExpr) : List String :=
  (((e.find "layers").bind SExpr.as_list).map
    (fun l => (l.drop 1).filterMap SExpr.as_atom)).getD []

/-- `KicadPcbImporter::parse_via`: `at` is required; size and drill
default to 0.6 and 0.3; with a span of at least two layers the via is
through exactly when the first and last entries are `F.Cu` and `B.Cu`
(otherwise blind), and with a shorter span it is through with no start or
end layer recorded. -/
def parse_via (e : SExpr) : Except KicadError Via :=
  match e.find "at" with
  | none => .error ⟨"Via missing position", none⟩
  | some ae =>
    let position : Position :=
      { x := (ae.get_f64 1).getD 0, y := (ae.get_f64 2).getD 0,
        z := none, unit := .mm }
    let size := ((e.find "size").bind (fun s => s.get_f64 1)).getD 0.6
    let drill := ((e.find "drill").bind (fun d => d.get_f64 1)).getD 0.3
    let net := ((e.find "net").bind (fun n => n.get_atom 1)).getD ""
    let layers := viaLayers e
    let cls : ViaType × Option String × Option String :=
      if 2 ≤ layers.length then
        let startL := layers.head?
        let endL := layers.getLast?
        (if startL = some "F.Cu" ∧ endL = some "B.Cu" then .through
         else .blind, startL, endL)
      else
        (.through, none, none)
    .ok { net, position, via_type := cls.1, drill, pad := size,
          start_layer := cls.2.1, end_layer := cls.2.2, unit := .mm }

/-- `KicadPcbImporter::parse_zone`. -/
def parse_zone (e : SExpr) : Except KicadError Zone :=
  let net := ((e.find "net_name").bind (fun n => n.get_atom 1)).getD ""
  let layer := ((e.find "layer").bind (fun l => l.get_atom 1)).getD "F.Cu"
  let points :=
    match e.find "polygon" with
    | some pe =>
      match pe.find "pts" with
      | some pts =>
        (pts.find_all "xy").map (fun xy =>
          Point2D.new ((xy.get_f64 1).getD 0) ((xy.get_f64 2).getD 0))
      | none => []
    | none => []
  let fill_type : ZoneFillType :=
    match e.find "fill" with
    | some fe => if fe.get_atom 1 == some "yes" then .solid else .unfilled
    | none => .solid
  let clearance := (e.find "clearance").bind (fun c => c.get_f64 1)
  let min_thickness := (e.find "min_thickness").bind (fun m => m.get_f64 1)
  .ok { net, layer, points, fill_type, clearance,
        min_width := min_thickness, unit := .mm }

/-- `KicadPcbImporter::import_from_string`: parse, require the `kicad_pcb`
root tag, take the layer stack (or the default set), then collect
footprints, traces, vias and zones, dropping each element whose own parse
fails. -/
def import_from_string (gen : Gen) (content : String) :
    Except KicadError Layout :=
  match SExprParser.parse content with
  | .error e => .error e
  | .ok expr =>
    if expr.tag ≠ some "kicad_pcb" then
      .error ⟨"Not a valid KiCAD PCB file", none⟩
    else
      match (match expr.find "layers" with
             | some le => parse_layers le
             | none => .ok Layout.default_pcb_layers :
          Except KicadError (List Layer)) with
      | .error e => .error e
      | .ok layers =>
        .ok { outline := none,
              layers,
              components := collectOk (mapWithIdx
                (fun i fe => parse_footprint (gen 1 i) fe) 0
                (expr.find_all "footprint")),
              traces := collectOk ((expr.find_all "segment").map
                parse_segment),
              vias := collectOk ((expr.find_all "via").map parse_via),
              zones := collectOk ((expr.find_all "zone").map parse_zone) }

end KicadPcbImporter

/-! Helper lemmas. -/

/-- The first match of a linear scan is the head of the list of all
matches. -/
theorem find?_eq_head_filter (p : α → Bool) (l : List α) :
    l.find? p = (l.filter p).head? := by
  induction l with
  | nil => rfl
  | cons a t ih =>
    by_cases h : p a
    · rw [List.find?_cons_of_pos _ h, List.filter_cons_of_pos h]
      rfl
    · simp only [Bool.not_eq_true] at h
      rw [List.find?_cons_of_neg _ (by simp [h]),
        List.filter_cons_of_neg (by simp [h]), ih]

/-- `collectOk` over a plain map keeps exactly the elements whose parse
succeeds. -/
theorem collectOk_map_length (f : α → Except KicadError β) (l : List α) :
    (collectOk (l.map f)).length =
      l.countP (fun x => (f x).toOption.isSome) := by
  induction l with
  | nil => rfl
  | cons a t ih =>
    cases h : (f a).toOption with
    | none =>
      have hstep : collectOk ((a :: t).map f) = collectOk (t.map f) := by
        simp [collectOk, List.filterMap_cons, h]
      rw [hstep, ih, List.countP_cons, h]
      simp
    | some b =>
      have hstep : collectOk ((a :: t).map f) = b :: collectOk (t.map f) := by
        simp [collectOk, List.filterMap_cons, h]
      rw [hstep, List.length_cons, ih, List.countP_cons, h]
      simp

/-- `collectOk` over an indexed map of an everywhere-successful parse
keeps every element. -/
theorem collectOk_mapWithIdx_length (f : Nat → α → Except KicadError β)
    (hok : ∀ j x, (f j x).toOption.isSome) :
    ∀ (i : Nat) (l : List α),
      (collectOk (mapWithIdx f i l)).length = l.length := by
  intro i l
  induction l generalizing i with
  | nil => rfl
  | cons a t ih =>
    have h := hok i a
    cases hfa : (f i a).toOption with
    | none => rw [hfa] at h; simp at h
    | some b =>
      simp only [mapWithIdx, collectOk, List.filterMap_cons, hfa]
      simpa [collectOk] using ih (i + 1)

/-- Membership in a `collectOk` of an indexed map comes from a successful
parse of a member of the underlying list. -/
theorem mem_collectOk_mapWithIdx (f : Nat → α → Except KicadError β)
    (b : β) :
    ∀ (i : Nat) (l : List α), b ∈ collectOk (mapWithIdx f i l) →
      ∃ j x, x ∈ l ∧ f j x = .ok b := by
  intro i l
  induction l generalizing i with
  | nil => simp [mapWithIdx, collectOk]
  | cons a t ih =>
    intro hb
    simp only [mapWithIdx, collectOk, List.filterMap_cons] at hb
    cases hfa : (f i a).toOption with
    | none =>
      rw [hfa] at hb
      obtain ⟨j, x, hx, hfx⟩ := ih (i + 1) hb
      exact ⟨j, x, List.mem_cons_of_mem _ hx, hfx⟩
    | some c =>
      rw [hfa] at hb
      rcases List.mem_cons.mp hb with h | h
      · refine ⟨i, a, List.mem_cons_self _ _, ?_⟩
        cases hf : f i a with
        | error err => rw [hf] at hfa; simp [Except.toOption] at hfa
        | ok v =>
          rw [hf] at hfa
          simp only [Except.toOption, Option.some.injEq] at hfa
          rw [hfa, ← h]
      · obtain ⟨j, x, hx, hfx⟩ := ih (i + 1) h
        exact ⟨j, x, List.mem_cons_of_mem _ hx, hfx⟩

/-! ### Claim C10 -/

/-- C10: for every tree node and tag, `find` returns the first element of
`find_all` whenever that list is non-empty and is absent exactly when
`find_all` is empty; on an atom node `find` is absent and `find_all` is
empty. -/
theorem c10_find_is_head_of_find_all (e : SExpr) (t : String) :
    e.find t = (e.find_all t).head? ∧
    (e.find t = none ↔ e.find_all t = []) ∧
    (∀ s, e = SExpr.atom s → e.find t = none ∧ e.find_all t = []) := by
  cases e with
  | atom s =>
    refine ⟨rfl, by simp [SExpr.find, SExpr.find_all, SExpr.as_list],
      fun s' _ => ⟨rfl, rfl⟩⟩
  | list l =>
    have h1 : SExpr.find (.list l) t = (SExpr.find_all (.list l) t).head? := by
      simp only [SExpr.find, SExpr.find_all, SExpr.as_list, Option.bind,
        Option.map, Option.getD]
      exact find?_eq_head_filter _ l
    refine ⟨h1, ?_, fun s h => by cases h⟩
    rw [h1]
    cases SExpr.find_all (.list l) t <;> simp

/-- C10 witness at a concrete node. -/
theorem c10_witness :
    SExpr.find (.list [.atom "x", .list [.atom "a", .atom "1"]]) "a" =
      (SExpr.find_all (.list [.atom "x", .list [.atom "a", .atom "1"]])
        "a").head? ∧
    (SExpr.find (.atom "y") "a" = none ∧
      SExpr.find_all (.atom "y") "a" = []) :=
  ⟨(c10_find_is_head_of_find_all
      (.list [.atom "x", .list [.atom "a", .atom "1"]]) "a").1,
   (c10_find_is_head_of_find_all (.atom "y") "a").2.2 "y" rfl⟩

/-! ### Claim C4 -/

/-- The `(key value)` child of the C4 counterexample. -/
def c4kv : SExpr := .list [.atom "key", .atom "v"]

/-- A node whose first child is an empty list and whose second child is a
well-formed `(key value)` pair. -/
def c4node : SExpr := .list [.list [], c4kv]

/-- C4 counterexample: `property` is claimed to return the first matching
value regardless of earlier atoms, empty lists or lists with non-atom
heads; on this node the matching `(key v)` child is present, yet the
empty-list child scanned before it aborts the lookup with no result
(removing that child restores the claimed answer). -/
theorem c4_counterexample :
    c4node.property "key" = none ∧
    c4node.as_list = some [SExpr.list [], c4kv] ∧
    c4kv.get_atom 0 = some "key" ∧ c4kv.get_atom 1 = some "v" ∧
    (SExpr.list [c4kv]).property "key" = some "v" :=
  ⟨rfl, rfl, rfl, rfl, rfl⟩

/-- A child the `property` scan can step over without aborting: an atom,
or a list whose head is an atom different from the key. -/
def scanBenign (key : String) : SExpr → Prop
  | .atom _ => True
  | .list (.atom s :: _) => s ≠ key
  | .list _ => False

/-- C4 amended: `property(key)` returns the first `(key value)` child's
value provided every child scanned before it is an atom or a list headed
by an atom different from the key; an empty-list child or a list child
with a non-atom head aborts the scan instead of being skipped. -/
theorem c4_amended_property_first_match (key v : String)
    (pre post rest : List SExpr)
    (hpre : ∀ x ∈ pre, scanBenign key x) :
    SExpr.property
      (.list (pre ++ (.list (.atom key :: .atom v :: rest)) :: post))
      key = some v := by
  simp only [SExpr.property, SExpr.as_list, Option.bind]
  induction pre with
  | nil =>
    simp [SExpr.propertyLoop, SExpr.as_list, SExpr.as_atom]
  | cons x t ih =>
    have hx := hpre x (List.mem_cons_self _ _)
    have ht : ∀ y ∈ t, scanBenign key y := fun y hy =>
      hpre y (List.mem_cons_of_mem _ hy)
    cases x with
    | atom s => simpa [SExpr.propertyLoop, SExpr.as_list] using ih ht
    | list cl =>
      cases cl with
      | nil => exact absurd hx (by simp [scanBenign])
      | cons h0 tl =>
        cases h0 with
        | atom s =>
          have hs : s ≠ key := hx
          simpa [SExpr.propertyLoop, SExpr.as_list, SExpr.as_atom, hs]
            using ih ht
        | list l0 => exact absurd hx (by simp [scanBenign])

/-- C4 amended witness: a benign prefix (an atom and a differently-keyed
pair) does not disturb the lookup. -/
theorem c4_amended_witness :
    SExpr.property
      (.list [.atom "noise", .list [.atom "other", .atom "w"],
        .list [.atom "key", .atom "v"], .atom "post"]) "key" = some "v" :=
  c4_amended_property_first_match "key" "v"
    [.atom "noise", .list [.atom "other", .atom "w"]] [.atom "post"] []
    (by intro x hx; fin_cases hx <;> simp [scanBenign])

/-! ### Claim C9 -/

/-- C9: when the input's first expression parses completely with a
non-empty, not-all-whitespace remainder (a second top-level expression,
stray closing parentheses, or any other trailing text), `parse` succeeds
and returns just that first expression; the trailing text is never
reported as an error. -/
theorem c9_trailing_ignored (s : String) (e : SExpr) (rem : List Char)
    (h : parseRun s.data = .ok (e, rem))
    (_hrem : rem.any (fun c => !c.isWhitespace) = true) :
    SExprParser.parse s = .ok e := by
  unfold SExprParser.parse
  rw [h]
  rfl

/-- C9 witness: a document followed by a second expression and a stray
closing parenthesis parses to the first expression alone. -/
theorem c9_witness :
    SExprParser.parse "(kicad_sch (version 1)) (extra))" =
      .ok (.list [.atom "kicad_sch", .list [.atom "version", .atom "1"]]) :=
  c9_trailing_ignored "(kicad_sch (version 1)) (extra))"
    (.list [.atom "kicad_sch", .list [.atom "version", .atom "1"]])
    [' ', '(', 'e', 'x', 't', 'r', 'a', ')', ')'] rfl (by decide)

/-! ### Claim C5 -/

/-- A via spanning front copper to back copper through an inner layer. -/
def c5via : SExpr :=
  .list [.atom "via", .list [.atom "at", .atom "1", .atom "2"],
    .list [.atom "layers", .atom "F.Cu", .atom "In1.Cu", .atom "B.Cu"]]

/-- C5 counterexample: this via's declared span has three layers, so it is
not exactly `[F.Cu, B.Cu]`, and the claim classifies it as blind; the
importer looks only at the first and last entries and classifies it as
through. -/
theorem c5_counterexample :
    KicadPcbImporter.viaLayers c5via = ["F.Cu", "In1.Cu", "B.Cu"] ∧
    ["F.Cu", "In1.Cu", "B.Cu"] ≠ ["F.Cu", "B.Cu"] ∧
    2 ≤ (["F.Cu", "In1.Cu", "B.Cu"] : List String).length ∧
    (KicadPcbImporter.parse_via c5via).map (fun v => v.via_type) =
      .ok .through :=
  ⟨rfl, by decide, by decide, rfl⟩

/-- C5 amended: with a span of at least two layers, a via is through
exactly when the span's first and last entries are `F.Cu` and `B.Cu` (and
those entries are recorded as its start and end layer); any other such
span gives blind; with fewer than two declared layers the via is through
with no start or end layer recorded. -/
theorem c5_amended_via_classification (e : SExpr) (v : Via)
    (h : KicadPcbImporter.parse_via e = .ok v) :
    (2 ≤ (KicadPcbImporter.viaLayers e).length →
      ((v.via_type = .through ↔
          ((KicadPcbImporter.viaLayers e).head? = some "F.Cu" ∧
           (KicadPcbImporter.viaLayers e).getLast? = some "B.Cu")) ∧
        v.start_layer = (KicadPcbImporter.viaLayers e).head? ∧
        v.end_layer = (KicadPcbImporter.viaLayers e).getLast?)) ∧
    ((KicadPcbImporter.viaLayers e).length < 2 →
      v.via_type = .through ∧ v.start_layer = none ∧ v.end_layer = none) := by
  unfold KicadPcbImporter.parse_via at h
  cases hat : e.find "at" with
  | none => rw [hat] at h; cases h
  | some ae =>
    rw [hat] at h
    simp only [Except.ok.injEq] at h
    subst h
    by_cases hlen : 2 ≤ (KicadPcbImporter.viaLayers e).length
    · refine ⟨fun _ => ?_, fun hlt => absurd hlen (by omega)⟩
      by_cases hfb : (KicadPcbImporter.viaLayers e).head? = some "F.Cu" ∧
          (KicadPcbImporter.viaLayers e).getLast? = some "B.Cu"
      · simp [hlen, hfb]
      · constructor
        · simp only [hlen, if_pos, hfb, if_neg]
          simp [hfb]
        · simp [hlen]
    · refine ⟨fun hge => absurd hge hlen, fun _ => ?_⟩
      simp [hlen]

/-- C5 amended witness: the three-layer via above, evaluated concretely,
satisfies the amended classification rule. -/
theorem c5_amended_witness :
    (Via.mk "" ⟨1, 2, none, .mm⟩ .through (0.3 : ℚ) (0.6 : ℚ)
        (some "F.Cu") (some "B.Cu") .mm).via_type = .through ↔
      ((KicadPcbImporter.viaLayers c5via).head? = some "F.Cu" ∧
       (KicadPcbImporter.viaLayers c5via).getLast? = some "B.Cu") :=
  ((c5_amended_via_classification c5via
      (Via.mk "" ⟨1, 2, none, .mm⟩ .through (0.3 : ℚ) (0.6 : ℚ)
        (some "F.Cu") (some "B.Cu") .mm)
      (by with_unfolding_all rfl)).1 (by decide)).1

/-! ### Claim C2 -/

/-- C2: whenever the parsed root expression does not carry the expected
root tag, the corresponding importer returns the document-level
invalid-file error (and hence no partial output). -/
theorem c2_wrong_root_tag_fails (gen : Gen) (content : String) (e : SExpr)
    (hp : SExprParser.parse content = .ok e) :
    (e.tag ≠ some "kicad_sch" →
      KicadSchematicImporter.import_from_string gen content =
        .error ⟨"Not a valid KiCAD schematic file", none⟩) ∧
    (e.tag ≠ some "kicad_symbol_lib" →
      KicadSymbolLibImporter.import_from_string gen content =
        .error ⟨"Not a valid KiCAD symbol library file", none⟩) ∧
    (e.tag ≠ some "kicad_pcb" →
      KicadPcbImporter.import_from_string gen content =
        .error ⟨"Not a valid KiCAD PCB file", none⟩) := by
  refine ⟨fun h => ?_, fun h => ?_, fun h => ?_⟩
  · simp [KicadSchematicImporter.import_from_string, hp, h]
  · simp [KicadSymbolLibImporter.import_from_string, hp, h]
  · simp [KicadPcbImporter.import_from_string, hp, h]

/-- C2 witness: a document whose root tag is `foo` is rejected by all
three importers. -/
theorem c2_witness :
    KicadSchematicImporter.import_from_string (fun _ _ => "") "(foo 1)" =
      .error ⟨"Not a valid KiCAD schematic file", none⟩ ∧
    KicadSymbolLibImporter.import_from_string (fun _ _ => "") "(foo 1)" =
      .error ⟨"Not a valid KiCAD symbol library file", none⟩ ∧
    KicadPcbImporter.import_from_string (fun _ _ => "") "(foo 1)" =
      .error ⟨"Not a valid KiCAD PCB file", none⟩ :=
  have h := c2_wrong_root_tag_fails (fun _ _ => "") "(foo 1)"
    (.list [.atom "foo", .atom "1"]) rfl
  ⟨h.1 (by decide), h.2.1 (by decide), h.2.2 (by decide)⟩

/-! ### Claim C3 -/

/-- A footprint that explicitly supplies a well-formed 36-character
identifier. -/
def c3fp : SExpr :=
  .list [.atom "footprint", .atom "R",
    .list [.atom "uuid", .atom "aaaaaaaa-aaaa-aaaa-aaaa-aaaaaaaaaaaa"]]

/-- C3 counterexample: the footprint above supplies a well-formed
identifier, yet `parse_footprint` assigns the freshly generated one; the
supplied identifier is never consulted for footprints. -/
theorem c3_counterexample :
    suppliedUuid c3fp = some "aaaaaaaa-aaaa-aaaa-aaaa-aaaaaaaaaaaa" ∧
    (KicadPcbImporter.parse_footprint "generated-id" c3fp).map
      PlacedComponent.id = .ok "generated-id" ∧
    "generated-id" ≠ "aaaaaaaa-aaaa-aaaa-aaaa-aaaaaaaaaaaa" :=
  ⟨by with_unfolding_all rfl, by with_unfolding_all rfl, by decide⟩

/-- C3 amended: every schematic element parser (symbol, wire, label,
junction, no-connect, power symbol, bus) preserves a supplied well-formed
identifier verbatim and substitutes the freshly generated one exactly when
the identifier is absent or malformed; the PCB footprint parser instead
assigns a freshly generated identifier unconditionally. -/
theorem c3_amended_identifier_policy (fresh : String) (e : SExpr) :
    (∀ u, suppliedUuid e = some u →
      (KicadSchematicImporter.parse_symbol fresh e).map PlacedSymbol.id =
        .ok u ∧
      (KicadSchematicImporter.parse_wire fresh e).map Wire.id = .ok u ∧
      (∀ lt, (KicadSchematicImporter.parse_label fresh e lt).map
        NetLabel.id = .ok u) ∧
      (KicadSchematicImporter.parse_junction fresh e).map Junction.id =
        .ok u ∧
      (KicadSchematicImporter.parse_no_connect fresh e).map NoConnect.id =
        .ok u ∧
      (KicadSchematicImporter.parse_power_symbol fresh e).map
        PowerSymbol.id = .ok u ∧
      (KicadSchematicImporter.parse_bus fresh e).map Bus.id = .ok u) ∧
    (suppliedUuid e = none →
      (KicadSchematicImporter.parse_symbol fresh e).map PlacedSymbol.id =
        .ok fresh ∧
      (KicadSchematicImporter.parse_wire fresh e).map Wire.id =
        .ok fresh ∧
      (∀ lt, (KicadSchematicImporter.parse_label fresh e lt).map
        NetLabel.id = .ok fresh) ∧
      (KicadSchematicImporter.parse_junction fresh e).map Junction.id =
        .ok fresh ∧
      (KicadSchematicImporter.parse_no_connect fresh e).map NoConnect.id =
        .ok fresh ∧
      (KicadSchematicImporter.parse_power_symbol fresh e).map
        PowerSymbol.id = .ok fresh ∧
      (KicadSchematicImporter.parse_bus fresh e).map Bus.id = .ok fresh) ∧
    (KicadPcbImporter.parse_footprint fresh e).map PlacedComponent.id =
      .ok fresh := by
  refine ⟨fun u h => ?_, fun h => ?_, ?_⟩
  · refine ⟨?_, ?_, fun lt => ?_, ?_, ?_, ?_, ?_⟩ <;>
      simp [KicadSchematicImporter.parse_symbol,
        KicadSchematicImporter.parse_wire,
        KicadSchematicImporter.parse_label,
        KicadSchematicImporter.parse_junction,
        KicadSchematicImporter.parse_no_connect,
        KicadSchematicImporter.parse_power_symbol,
        KicadSchematicImporter.parse_bus, Except.map, h]
  · refine ⟨?_, ?_, fun lt => ?_, ?_, ?_, ?_, ?_⟩ <;>
      simp [KicadSchematicImporter.parse_symbol,
        KicadSchematicImporter.parse_wire,
        KicadSchematicImporter.parse_label,
        KicadSchematicImporter.parse_junction,
        KicadSchematicImporter.parse_no_connect,
        KicadSchematicImporter.parse_power_symbol,
        KicadSchematicImporter.parse_bus, Except.map, h]
  · simp [KicadPcbImporter.parse_footprint, Except.map]

/-- C3 amended witness: a junction with a supplied identifier keeps it; a
junction without one gets the generated identifier; a footprint always
gets the generated identifier. -/
theorem c3_amended_witness :
    (KicadSchematicImporter.parse_junction "gen0"
      (.list [.atom "junction",
        .list [.atom "uuid",
          .atom "dddddddd-dddd-dddd-dddd-dddddddddddd"]])).map
      Junction.id = .ok "dddddddd-dddd-dddd-dddd-dddddddddddd" ∧
    (KicadSchematicImporter.parse_junction "gen0"
      (.list [.atom "junction"])).map Junction.id = .ok "gen0" :=
  ⟨((c3_amended_identifier_policy "gen0"
      (.list [.atom "junction",
        .list [.atom "uuid",
          .atom "dddddddd-dddd-dddd-dddd-dddddddddddd"]])).1
      "dddddddd-dddd-dddd-dddd-dddddddddddd"
      (by with_unfolding_all rfl)).2.2.2.1,
   ((c3_amended_identifier_policy "gen0"
      (.list [.atom "junction"])).2.1 (by decide)).2.2.2.1⟩

/-! ### Claim C7 -/

/-- `parse_segment` fails exactly when the `start` or `end` child is
absent; no numeric content ever fails it. -/
theorem parse_segment_fails_iff (e : SExpr) :
    (KicadPcbImporter.parse_segment e).toOption = none ↔
      (e.find "start" = none ∨ e.find "end" = none) := by
  unfold KicadPcbImporter.parse_segment
  cases hs : e.find "start" with
  | none => simp [Except.toOption]
  | some se =>
    cases he : e.find "end" with
    | none => simp [Except.toOption]
    | some ee => simp [Except.toOption]

/-- `parse_via` fails exactly when the `at` child is absent. -/
theorem parse_via_fails_iff (e : SExpr) :
    (KicadPcbImporter.parse_via e).toOption = none ↔
      e.find "at" = none := by
  unfold KicadPcbImporter.parse_via
  cases hat : e.find "at" with
  | none => simp [Except.toOption]
  | some ae => simp [Except.toOption]

/-- A pad with no `size` child at all. -/
def c7pad : SExpr := .list [.atom "pad"]

/-- C7 counterexample: the pad above has no `size` sub-expression; the
imported pad's width and height are 1.0, which is neither 0.0 nor any of
the documented non-zero defaults (trace width 0.25, via size 0.6, via
drill 0.3, pad drill 0). -/
theorem c7_counterexample :
    c7pad.find "size" = none ∧
    (KicadPcbImporter.parse_pad c7pad).map Pad.size = .ok (1, 1) ∧
    ¬((1 : ℚ) = 0 ∨ (1 : ℚ) = 0.25 ∨ (1 : ℚ) = 0.6 ∨ (1 : ℚ) = 0.3) :=
  ⟨rfl, by with_unfolding_all rfl, by norm_num⟩

/-- C7 amended: absent or unparsable numeric sub-expressions never fail an
element —  the only per-element failures are a missing `start`/`end` child
of a segment and a missing `at` child of a via — and the absent-field
defaults are: pad size 1.0 × 1.0, pad drill 0, pad position 0, trace
width 0.25, via size 0.6, via drill 0.3, symbol position and rotation 0. -/
theorem c7_amended_numeric_defaults (fresh : String) (e : SExpr) :
    (∃ p, KicadPcbImporter.parse_pad e = .ok p ∧
      (e.find "size" = none → p.size = (1, 1)) ∧
      ((e.find "drill").bind (fun d => d.get_f64 1) = none → p.drill = 0) ∧
      (e.find "at" = none → p.position = Point2D.new 0 0)) ∧
    (∀ t, KicadPcbImporter.parse_segment e = .ok t →
      ((e.find "width").bind (fun w => w.get_f64 1) = none →
        t.width = 0.25)) ∧
    ((KicadPcbImporter.parse_segment e).toOption = none ↔
      (e.find "start" = none ∨ e.find "end" = none)) ∧
    (∀ v, KicadPcbImporter.parse_via e = .ok v →
      ((e.find "size").bind (fun s => s.get_f64 1) = none → v.pad = 0.6) ∧
      ((e.find "drill").bind (fun d => d.get_f64 1) = none →
        v.drill = 0.3)) ∧
    ((KicadPcbImporter.parse_via e).toOption = none ↔
      e.find "at" = none) ∧
    (∃ s, KicadSchematicImporter.parse_symbol fresh e = .ok s ∧
      (e.find "at" = none →
        s.position = Point2D.new 0 0 ∧ s.rotation = 0)) := by
  refine ⟨?_, ?_, parse_segment_fails_iff e, ?_, parse_via_fails_iff e, ?_⟩
  · refine ⟨_, rfl, fun hs => ?_, fun hd => ?_, fun hat => ?_⟩
    · simp [KicadPcbImporter.parse_pad, hs]
    · simp [KicadPcbImporter.parse_pad, hd]
    · simp [KicadPcbImporter.parse_pad, atPair, hat]
  · intro t ht hw
    unfold KicadPcbImporter.parse_segment at ht
    cases hs : e.find "start" with
    | none => rw [hs] at ht; cases ht
    | some se =>
      rw [hs] at ht
      cases he : e.find "end" with
      | none => rw [he] at ht; cases ht
      | some ee =>
        rw [he] at ht
        simp only [Except.ok.injEq] at ht
        subst ht
        simp [hw]
  · intro v hv
    unfold KicadPcbImporter.parse_via at hv
    cases hat : e.find "at" with
    | none => rw [hat] at hv; cases hv
    | some ae =>
      rw [hat] at hv
      simp only [Except.ok.injEq] at hv
      subst hv
      exact ⟨fun hs => by simp [hs], fun hd => by simp [hd]⟩
  · refine ⟨_, rfl, fun hat => ?_⟩
    constructor <;>
      simp [KicadSchematicImporter.parse_symbol, atTriple, hat]

/-- A segment with endpoints but no width, and its imported trace. -/
def c7seg : SExpr :=
  .list [.atom "segment", .list [.atom "start", .atom "1", .atom "2"],
    .list [.atom "end", .atom "3", .atom "4"]]

/-- The trace imported from `c7seg`. -/
def c7segTrace : Trace :=
  ⟨"", "F.Cu", ⟨1, 2, none, .mm⟩, ⟨3, 4, none, .mm⟩, 0.25, .mm⟩

/-- A via with a position but no size or drill, and its imported via. -/
def c7via : SExpr :=
  .list [.atom "via", .list [.atom "at", .atom "1", .atom "2"]]

/-- The via imported from `c7via`. -/
def c7viaVal : Via :=
  ⟨"", ⟨1, 2, none, .mm⟩, .through, 0.3, 0.6, none, none, .mm⟩

/-- C7 amended witness: a segment with no width takes 0.25, a via with no
size or drill takes 0.6 and 0.3, and the bare pad takes size 1.0. -/
theorem c7_amended_witness :
    c7segTrace.width = 0.25 ∧ c7viaVal.pad = 0.6 ∧ c7viaVal.drill = 0.3 ∧
    (KicadPcbImporter.parse_pad c7pad).map Pad.size = .ok (1, 1) := by
  have hseg : KicadPcbImporter.parse_segment c7seg = .ok c7segTrace := by
    with_unfolding_all rfl
  have hvia : KicadPcbImporter.parse_via c7via = .ok c7viaVal := by
    with_unfolding_all rfl
  have hv := (c7_amended_numeric_defaults "f" c7via).2.2.2.1 c7viaVal hvia
  obtain ⟨p, hp, hsize, -, -⟩ := (c7_amended_numeric_defaults "f" c7pad).1
  refine ⟨(c7_amended_numeric_defaults "f" c7seg).2.1 c7segTrace hseg rfl,
    hv.1 rfl, hv.2 rfl, ?_⟩
  rw [hp]
  simp [Except.map, hsize rfl]

/-! ### Claim C1 -/

/-- A PCB document with a segment that has no `start` child and a via
that has no `at` child. -/
def c1content : String :=
  "(kicad_pcb (segment (end 1 2)) (via (size 0.6)))"

/-- C1 counterexample: the document above has the `kicad_pcb` root tag,
one segment lacking `start` and one via lacking `at`; the import does not
abort with a document-level error — it succeeds, returning a layout in
which both offending elements have simply been dropped. -/
theorem c1_counterexample :
    (SExprParser.parse c1content).map SExpr.tag = .ok (some "kicad_pcb") ∧
    (SExprParser.parse c1content).map (fun e =>
      (e.find_all "segment").map (fun s =>
        ((s.find "start").isSome, (s.find "end").isSome))) =
      .ok [(false, true)] ∧
    (SExprParser.parse c1content).map (fun e =>
      (e.find_all "via").map (fun v => (v.find "at").isSome)) =
      .ok [false] ∧
    (KicadPcbImporter.import_from_string (fun _ _ => "") c1content).map
      (fun l => (l.traces, l.vias)) = .ok ([], []) :=
  ⟨rfl, rfl, rfl, by with_unfolding_all rfl⟩

/-- `parse_layers` always succeeds. -/
theorem parse_layers_ok (le : SExpr) :
    ∃ ls, KicadPcbImporter.parse_layers le = .ok ls :=
  ⟨_, rfl⟩

/-- Success of `parse_segment` as a boolean of the two required
children. -/
theorem parse_segment_isSome (s : SExpr) :
    (KicadPcbImporter.parse_segment s).toOption.isSome =
      ((s.find "start").isSome && (s.find "end").isSome) := by
  unfold KicadPcbImporter.parse_segment
  rcases h1 : s.find "start" with _ | se <;>
    rcases h2 : s.find "end" with _ | ee <;>
      simp [Except.toOption]

/-- Success of `parse_via` as a boolean of its required child. -/
theorem parse_via_isSome (v : SExpr) :
    (KicadPcbImporter.parse_via v).toOption.isSome =
      (v.find "at").isSome := by
  unfold KicadPcbImporter.parse_via
  rcases h1 : v.find "at" with _ | ae <;> simp [Except.toOption]

/-- C1 amended: on a document whose root tag is `kicad_pcb`, the import
always succeeds; a segment lacking `start` or `end` and a via lacking
`at` are dropped from their collections rather than aborting the import,
and every other footprint and zone is still imported. -/
theorem c1_amended_malformed_elements_dropped (gen : Gen)
    (content : String) (e : SExpr) (rem : List Char)
    (hp : parseRun content.data = .ok (e, rem))
    (ht : e.tag = some "kicad_pcb") :
    ∃ layout, KicadPcbImporter.import_from_string gen content =
        .ok layout ∧
      layout.traces.length = (e.find_all "segment").countP
        (fun s => (s.find "start").isSome && (s.find "end").isSome) ∧
      layout.vias.length = (e.find_all "via").countP
        (fun v => (v.find "at").isSome) ∧
      layout.components.length = (e.find_all "footprint").length ∧
      layout.zones.length = (e.find_all "zone").length := by
  have hpe : SExprParser.parse content = .ok e := by
    unfold SExprParser.parse
    rw [hp]
    rfl
  have htr : (collectOk ((e.find_all "segment").map
      KicadPcbImporter.parse_segment)).length =
      (e.find_all "segment").countP
        (fun s => (s.find "start").isSome && (s.find "end").isSome) := by
    rw [collectOk_map_length]
    exact List.countP_congr (fun s _ => by rw [parse_segment_isSome s])
  have hvi : (collectOk ((e.find_all "via").map
      KicadPcbImporter.parse_via)).length =
      (e.find_all "via").countP (fun v => (v.find "at").isSome) := by
    rw [collectOk_map_length]
    exact List.countP_congr (fun v _ => by rw [parse_via_isSome v])
  have hco : (collectOk (mapWithIdx
      (fun i fe => KicadPcbImporter.parse_footprint (gen 1 i) fe) 0
      (e.find_all "footprint"))).length =
      (e.find_all "footprint").length := by
    refine collectOk_mapWithIdx_length _ (fun j x => ?_) 0 _
    simp [KicadPcbImporter.parse_footprint, Except.toOption]
  have hzo : (collectOk ((e.find_all "zone").map
      KicadPcbImporter.parse_zone)).length =
      (e.find_all "zone").length := by
    rw [collectOk_map_length]
    have h : ∀ z ∈ e.find_all "zone",
        ((KicadPcbImporter.parse_zone z).toOption.isSome = true ↔
          (fun _ => true) z = true) := by
      intro z _
      simp [KicadPcbImporter.parse_zone, Except.toOption]
    rw [List.countP_congr h]
    simp [List.countP_true]
  unfold KicadPcbImporter.import_from_string
  rw [hpe]
  simp only [ht, ne_eq, not_true_eq_false, if_false, ite_false]
  cases hl : e.find "layers" with
  | none => exact ⟨_, rfl, htr, hvi, hco, hzo⟩
  | some le => exact ⟨_, rfl, htr, hvi, hco, hzo⟩

/-- C1 amended witness: the counterexample document imports successfully
with both malformed elements dropped and the claimed counts. -/
theorem c1_amended_witness :
    ∃ layout,
      KicadPcbImporter.import_from_string (fun _ _ => "") c1content =
        .ok layout ∧
      layout.traces.length = 0 ∧ layout.vias.length = 0 := by
  obtain ⟨layout, hok, htr, hvi, -, -⟩ :=
    c1_amended_malformed_elements_dropped (fun _ _ => "") c1content
      (.list [.atom "kicad_pcb",
        .list [.atom "segment", .list [.atom "end", .atom "1", .atom "2"]],
        .list [.atom "via", .list [.atom "size", .atom "0.6"]]])
      [] rfl rfl
  refine ⟨layout, hok, ?_, ?_⟩
  · rw [htr]; rfl
  · rw [hvi]; rfl

/-! ### Claim C6 -/

/-- Every parsed power symbol's style is the substring rule applied to its
resolved net name. -/
theorem parse_power_symbol_style (fresh : String) (x : SExpr)
    (p : PowerSymbol)
    (h : KicadSchematicImporter.parse_power_symbol fresh x = .ok p) :
    p.style = KicadSchematicImporter.powerStyleOf p.net_name := by
  unfold KicadSchematicImporter.parse_power_symbol at h
  simp only [Except.ok.injEq] at h
  subst h
  rfl

/-- C6: a schematic's power-symbol collection holds exactly one entry per
`symbol` element satisfying `is_power_symbol` (library id containing
"power" case-insensitively, or a property named "power"), and each
appended power symbol's style is ground when the resolved net name
contains "GND" case-insensitively, else earth when it contains "EARTH",
else the generic bar. -/
theorem c6_power_symbol_classification (gen : Gen) (content : String)
    (e : SExpr) (rem : List Char) (sheet : SchematicSheet)
    (hp : parseRun content.data = .ok (e, rem))
    (hi : KicadSchematicImporter.import_from_string gen content =
      .ok sheet) :
    sheet.power_symbols.length =
      (e.find_all "symbol").countP
        KicadSchematicImporter.is_power_symbol ∧
    ∀ p ∈ sheet.power_symbols,
      p.style = KicadSchematicImporter.powerStyleOf p.net_name := by
  have hpe : SExprParser.parse content = .ok e := by
    unfold SExprParser.parse
    rw [hp]
    rfl
  unfold KicadSchematicImporter.import_from_string at hi
  rw [hpe] at hi
  by_cases htag : e.tag = some "kicad_sch"
  · simp only [htag, ne_eq, not_true_eq_false, if_false, ite_false,
      Except.ok.injEq] at hi
    subst hi
    constructor
    · have hlen := collectOk_mapWithIdx_length
        (fun i pe => KicadSchematicImporter.parse_power_symbol (gen 8 i) pe)
        (fun j x => by
          simp [KicadSchematicImporter.parse_power_symbol,
            Except.toOption]) 0
        ((e.find_all "symbol").filter
          KicadSchematicImporter.is_power_symbol)
      rw [hlen, List.countP_eq_length_filter]
    · intro p hpmem
      obtain ⟨j, x, hx, hok⟩ := mem_collectOk_mapWithIdx _ p 0 _ hpmem
      exact parse_power_symbol_style (gen 8 j) x p hok
  · simp only [htag, ne_eq, not_false_eq_true, if_true, ite_true] at hi
    cases hi

/-- A schematic with a single power symbol on net GND. -/
def c6content : String :=
  "(kicad_sch (symbol (lib_id powerlib:GND) (property Value GND)))"

/-- The sheet imported from `c6content` under the constant identifier
source. -/
def c6sheet : SchematicSheet :=
  { id := "", name := "Imported",
    symbols := [⟨"", "U?", "GND", "powerlib", "GND", Point2D.new 0 0, 0,
      false, false, 1, [], []⟩],
    wires := [], labels := [], junctions := [], no_connects := [],
    power_symbols := [⟨"", "GND", Point2D.new 0 0, 0, .ground⟩],
    buses := [] }

/-- C6 witness: the concrete one-power-symbol schematic has exactly one
entry in the power-symbol collection and it is styled as ground. -/
theorem c6_witness :
    c6sheet.power_symbols.length =
      ((SExpr.list [.atom "kicad_sch",
        .list [.atom "symbol",
          .list [.atom "lib_id", .atom "powerlib:GND"],
          .list [.atom "property", .atom "Value", .atom "GND"]]]).find_all
        "symbol").countP KicadSchematicImporter.is_power_symbol ∧
    ∀ p ∈ c6sheet.power_symbols,
      p.style = KicadSchematicImporter.powerStyleOf p.net_name :=
  c6_power_symbol_classification (fun _ _ => "") c6content
    (SExpr.list [.atom "kicad_sch",
      .list [.atom "symbol",
        .list [.atom "lib_id", .atom "powerlib:GND"],
        .list [.atom "property", .atom "Value", .atom "GND"]]])
    [] c6sheet rfl (by with_unfolding_all rfl)

/-! ### Claim C8 -/

/-- Erase the identifier of a placed symbol. -/
def PlacedSymbol.stripId (s : PlacedSymbol) : PlacedSymbol :=
  { s with id := "" }

/-- Erase the identifier of a wire. -/
def Wire.stripId (w : Wire) : Wire := { w with id := "" }

/-- Erase the identifier of a net label. -/
def NetLabel.stripId (l : NetLabel) : NetLabel := { l with id := "" }

/-- Erase the identifier of a junction. -/
def Junction.stripId (j : Junction) : Junction := { j with id := "" }

/-- Erase the identifier of a no-connect. -/
def NoConnect.stripId (n : NoConnect) : NoConnect := { n with id := "" }

/-- Erase the identifier of a power symbol. -/
def PowerSymbol.stripId (p : PowerSymbol) : PowerSymbol :=
  { p with id := "" }

/-- Erase the identifier of a bus. -/
def Bus.stripId (b : Bus) : Bus := { b with id := "" }

/-- Erase every identifier of a sheet, leaving all other field values:
two sheets with equal `stripIds` images have collections of identical
lengths and identical non-identifier field values. -/
def SchematicSheet.stripIds (s : SchematicSheet) : SchematicSheet :=
  { id := "", name := s.name,
    symbols := s.symbols.map PlacedSymbol.stripId,
    wires := s.wires.map Wire.stripId,
    labels := s.labels.map NetLabel.stripId,
    junctions := s.junctions.map Junction.stripId,
    no_connects := s.no_connects.map NoConnect.stripId,
    power_symbols := s.power_symbols.map PowerSymbol.stripId,
    buses := s.buses.map Bus.stripId }

/-- The document and every element expression explicitly supply a
well-formed identifier. -/
def allIdsSupplied (e : SExpr) : Prop :=
  (suppliedUuid e).isSome = true ∧
  (∀ x ∈ e.find_all "symbol", (suppliedUuid x).isSome = true) ∧
  (∀ x ∈ e.find_all "wire", (suppliedUuid x).isSome = true) ∧
  (∀ x ∈ e.find_all "label", (suppliedUuid x).isSome = true) ∧
  (∀ x ∈ e.find_all "global_label", (suppliedUuid x).isSome = true) ∧
  (∀ x ∈ e.find_all "hierarchical_label",
    (suppliedUuid x).isSome = true) ∧
  (∀ x ∈ e.find_all "junction", (suppliedUuid x).isSome = true) ∧
  (∀ x ∈ e.find_all "no_connect", (suppliedUuid x).isSome = true) ∧
  (∀ x ∈ e.find_all "bus", (suppliedUuid x).isSome = true)

/-- Collected results of two identifier sources agree after stripping,
provided each element's two parses agree after stripping. -/
theorem collect_strip {α : Type} (f : String → SExpr → Except KicadError α)
    (st : α → α) (g₁ g₂ : Nat → String)
    (hstrip : ∀ f₁ f₂ x, ∃ a b, f f₁ x = .ok a ∧ f f₂ x = .ok b ∧
      st a = st b) :
    ∀ (i : Nat) (l : List SExpr),
      (collectOk (mapWithIdx (fun i x => f (g₁ i) x) i l)).map st =
      (collectOk (mapWithIdx (fun i x => f (g₂ i) x) i l)).map st := by
  intro i l
  induction l generalizing i with
  | nil => rfl
  | cons x t ih =>
    obtain ⟨a, b, ha, hb, hst⟩ := hstrip (g₁ i) (g₂ i) x
    simp only [mapWithIdx, collectOk, List.filterMap_cons, ha, hb,
      Except.toOption, List.map_cons]
    rw [hst]
    have := ih (i + 1)
    simp only [collectOk] at this
    rw [this]

/-- Collected results of two identifier sources are identical when every
element's parse does not depend on the fresh identifier. -/
theorem collect_gen_eq {α : Type}
    (f : String → SExpr → Except KicadError α) (g₁ g₂ : Nat → String) :
    ∀ (i : Nat) (l : List SExpr),
      (∀ x ∈ l, ∀ fr₁ fr₂, f fr₁ x = f fr₂ x) →
      collectOk (mapWithIdx (fun i x => f (g₁ i) x) i l) =
      collectOk (mapWithIdx (fun i x => f (g₂ i) x) i l) := by
  intro i l
  induction l generalizing i with
  | nil => intro _; rfl
  | cons x t ih =>
    intro hall
    have hx := hall x (List.mem_cons_self _ _) (g₁ i) (g₂ i)
    have ht := ih (i + 1) (fun y hy => hall y (List.mem_cons_of_mem _ hy))
    simp only [mapWithIdx, collectOk, List.filterMap_cons, hx]
    simp only [collectOk] at ht
    rw [ht]

/-- Two parses of one symbol agree after identifier stripping. -/
theorem parse_symbol_strip_agrees (f₁ f₂ : String) (x : SExpr) :
    ∃ a b, KicadSchematicImporter.parse_symbol f₁ x = .ok a ∧
      KicadSchematicImporter.parse_symbol f₂ x = .ok b ∧
      a.stripId = b.stripId :=
  ⟨_, _, rfl, rfl, rfl⟩

/-- A symbol with a supplied identifier parses identically under any two
fresh identifiers. -/
theorem parse_symbol_supplied_eq (x : SExpr)
    (h : (suppliedUuid x).isSome = true) (f₁ f₂ : String) :
    KicadSchematicImporter.parse_symbol f₁ x =
      KicadSchematicImporter.parse_symbol f₂ x := by
  cases hs : suppliedUuid x with
  | none => rw [hs] at h; cases h
  | some u => simp [KicadSchematicImporter.parse_symbol, hs]

/-- Two parses of one wire agree after identifier stripping. -/
theorem parse_wire_strip_agrees (f₁ f₂ : String) (x : SExpr) :
    ∃ a b, KicadSchematicImporter.parse_wire f₁ x = .ok a ∧
      KicadSchematicImporter.parse_wire f₂ x = .ok b ∧
      a.stripId = b.stripId :=
  ⟨_, _, rfl, rfl, rfl⟩

/-- A wire with a supplied identifier parses identically under any two
fresh identifiers. -/
theorem parse_wire_supplied_eq (x : SExpr)
    (h : (suppliedUuid x).isSome = true) (f₁ f₂ : String) :
    KicadSchematicImporter.parse_wire f₁ x =
      KicadSchematicImporter.parse_wire f₂ x := by
  cases hs : suppliedUuid x with
  | none => rw [hs] at h; cases h
  | some u => simp [KicadSchematicImporter.parse_wire, hs]

/-- Two parses of one label agree after identifier stripping. -/
theorem parse_label_strip_agrees (lt : LabelType) (f₁ f₂ : String)
    (x : SExpr) :
    ∃ a b, KicadSchematicImporter.parse_label f₁ x lt = .ok a ∧
      KicadSchematicImporter.parse_label f₂ x lt = .ok b ∧
      a.stripId = b.stripId :=
  ⟨_, _, rfl, rfl, rfl⟩

/-- A label with a supplied identifier parses identically under any two
fresh identifiers. -/
theorem parse_label_supplied_eq (lt : LabelType) (x : SExpr)
    (h : (suppliedUuid x).isSome = true) (f₁ f₂ : String) :
    KicadSchematicImporter.parse_label f₁ x lt =
      KicadSchematicImporter.parse_label f₂ x lt := by
  cases hs : suppliedUuid x with
  | none => rw [hs] at h; cases h
  | some u => simp [KicadSchematicImporter.parse_label, hs]

/-- Two parses of one junction agree after identifier stripping. -/
theorem parse_junction_strip_agrees (f₁ f₂ : String) (x : SExpr) :
    ∃ a b, KicadSchematicImporter.parse_junction f₁ x = .ok a ∧
      KicadSchematicImporter.parse_junction f₂ x = .ok b ∧
      a.stripId = b.stripId :=
  ⟨_, _, rfl, rfl, rfl⟩

/-- A junction with a supplied identifier parses identically under any
two fresh identifiers. -/
theorem parse_junction_supplied_eq (x : SExpr)
    (h : (suppliedUuid x).isSome = true) (f₁ f₂ : String) :
    KicadSchematicImporter.parse_junction f₁ x =
      KicadSchematicImporter.parse_junction f₂ x := by
  cases hs : suppliedUuid x with
  | none => rw [hs] at h; cases h
  | some u => simp [KicadSchematicImporter.parse_junction, hs]

/-- Two parses of one no-connect agree after identifier stripping. -/
theorem parse_no_connect_strip_agrees (f₁ f₂ : String) (x : SExpr) :
    ∃ a b, KicadSchematicImporter.parse_no_connect f₁ x = .ok a ∧
      KicadSchematicImporter.parse_no_connect f₂ x = .ok b ∧
      a.stripId = b.stripId :=
  ⟨_, _, rfl, rfl, rfl⟩

/-- A no-connect with a supplied identifier parses identically under any
two fresh identifiers. -/
theorem parse_no_connect_supplied_eq (x : SExpr)
    (h : (suppliedUuid x).isSome = true) (f₁ f₂ : String) :
    KicadSchematicImporter.parse_no_connect f₁ x =
      KicadSchematicImporter.parse_no_connect f₂ x := by
  cases hs : suppliedUuid x with
  | none => rw [hs] at h; cases h
  | some u => simp [KicadSchematicImporter.parse_no_connect, hs]

/-- Two parses of one power symbol agree after identifier stripping. -/
theorem parse_power_strip_agrees (f₁ f₂ : String) (x : SExpr) :
    ∃ a b, KicadSchematicImporter.parse_power_symbol f₁ x = .ok a ∧
      KicadSchematicImporter.parse_power_symbol f₂ x = .ok b ∧
      a.stripId = b.stripId :=
  ⟨_, _, rfl, rfl, rfl⟩

/-- A power symbol with a supplied identifier parses identically under
any two fresh identifiers. -/
theorem parse_power_supplied_eq (x : SExpr)
    (h : (suppliedUuid x).isSome = true) (f₁ f₂ : String) :
    KicadSchematicImporter.parse_power_symbol f₁ x =
      KicadSchematicImporter.parse_power_symbol f₂ x := by
  cases hs : suppliedUuid x with
  | none => rw [hs] at h; cases h
  | some u => simp [KicadSchematicImporter.parse_power_symbol, hs]

/-- Two parses of one bus agree after identifier stripping. -/
theorem parse_bus_strip_agrees (f₁ f₂ : String) (x : SExpr) :
    ∃ a b, KicadSchematicImporter.parse_bus f₁ x = .ok a ∧
      KicadSchematicImporter.parse_bus f₂ x = .ok b ∧
      a.stripId = b.stripId :=
  ⟨_, _, rfl, rfl, rfl⟩

/-- A bus with a supplied identifier parses identically under any two
fresh identifiers. -/
theorem parse_bus_supplied_eq (x : SExpr)
    (h : (suppliedUuid x).isSome = true) (f₁ f₂ : String) :
    KicadSchematicImporter.parse_bus f₁ x =
      KicadSchematicImporter.parse_bus f₂ x := by
  cases hs : suppliedUuid x with
  | none => rw [hs] at h; cases h
  | some u => simp [KicadSchematicImporter.parse_bus, hs]

/-- Erase the identifier of a library component. -/
def Component.stripId (c : Component) : Component := { c with id := "" }

/-- Erase the identifier of a placed footprint. -/
def PlacedComponent.stripId (c : PlacedComponent) : PlacedComponent :=
  { c with id := "" }

/-- Erase every identifier of a layout: only placed footprints carry a
generated identifier; every other field is copied unchanged. -/
def Layout.stripIds (l : Layout) : Layout :=
  { l with components := l.components.map PlacedComponent.stripId }

/-- Two parses of one library symbol agree after identifier stripping
(the component identifier always comes from `Component::new`'s fresh
`Uuid::new_v4`). -/
theorem lib_parse_symbol_strip_agrees (f₁ f₂ : String) (x : SExpr) :
    ∃ a b, KicadSymbolLibImporter.parse_symbol f₁ x = .ok a ∧
      KicadSymbolLibImporter.parse_symbol f₂ x = .ok b ∧
      a.stripId = b.stripId :=
  ⟨_, _, rfl, rfl, by with_unfolding_all rfl⟩

/-- Two parses of one footprint agree after identifier stripping (the
footprint identifier is always a fresh `Uuid::new_v4`). -/
theorem parse_footprint_strip_agrees (f₁ f₂ : String) (x : SExpr) :
    ∃ a b, KicadPcbImporter.parse_footprint f₁ x = .ok a ∧
      KicadPcbImporter.parse_footprint f₂ x = .ok b ∧
      a.stripId = b.stripId :=
  ⟨_, _, rfl, rfl, by with_unfolding_all rfl⟩

/-- C8: for each of the three importers, two runs of
`import_from_string` on the same text under arbitrary identifier sources
yield outputs that are identical after identifier stripping — identical
collection lengths and identical non-identifier field values.  For the
schematic importer, when the document and every element supply explicit
well-formed identifiers the two sheets are fully identical; the
symbol-library and PCB importers generate every component and footprint
identifier afresh (no supplied identifier ever reaches their outputs, so
nothing else can differ between runs).  In every case only generated
fallback identifiers may differ. -/
theorem c8_reimport_agreement (content : String) (g₁ g₂ : Gen) :
    (∀ (e : SExpr) (rem : List Char) (s₁ s₂ : SchematicSheet),
      parseRun content.data = .ok (e, rem) →
      KicadSchematicImporter.import_from_string g₁ content = .ok s₁ →
      KicadSchematicImporter.import_from_string g₂ content = .ok s₂ →
      s₁.stripIds = s₂.stripIds ∧ (allIdsSupplied e → s₁ = s₂)) ∧
    (∀ (cs₁ cs₂ : List Component),
      KicadSymbolLibImporter.import_from_string g₁ content = .ok cs₁ →
      KicadSymbolLibImporter.import_from_string g₂ content = .ok cs₂ →
      cs₁.map Component.stripId = cs₂.map Component.stripId) ∧
    (∀ (l₁ l₂ : Layout),
      KicadPcbImporter.import_from_string g₁ content = .ok l₁ →
      KicadPcbImporter.import_from_string g₂ content = .ok l₂ →
      l₁.stripIds = l₂.stripIds) := by
  refine ⟨?_, ?_, ?_⟩
  · intro e rem s₁ s₂ hp h₁ h₂
    have hpe : SExprParser.parse content = .ok e := by
      unfold SExprParser.parse
      rw [hp]
      rfl
    unfold KicadSchematicImporter.import_from_string at h₁ h₂
    rw [hpe] at h₁ h₂
    by_cases htag : e.tag = some "kicad_sch"
    · simp only [htag, ne_eq, not_true_eq_false, if_false, ite_false,
        Except.ok.injEq] at h₁ h₂
      subst h₁
      subst h₂
      constructor
      · simp only [SchematicSheet.stripIds, SchematicSheet.mk.injEq]
        refine ⟨trivial, rfl, ?_, ?_, ?_, ?_, ?_, ?_, ?_⟩
        · exact collect_strip _ PlacedSymbol.stripId
            (fun i => g₁ 1 i) (fun i => g₂ 1 i)
            (fun a b x => parse_symbol_strip_agrees a b x) 0 _
        · exact collect_strip _ Wire.stripId
            (fun i => g₁ 2 i) (fun i => g₂ 2 i)
            (fun a b x => parse_wire_strip_agrees a b x) 0 _
        · simp only [List.map_append]
          rw [collect_strip _ NetLabel.stripId
              (fun i => g₁ 3 i) (fun i => g₂ 3 i)
              (fun a b x => parse_label_strip_agrees .local a b x) 0 _,
            collect_strip _ NetLabel.stripId
              (fun i => g₁ 4 i) (fun i => g₂ 4 i)
              (fun a b x => parse_label_strip_agrees .global a b x) 0 _,
            collect_strip _ NetLabel.stripId
              (fun i => g₁ 5 i) (fun i => g₂ 5 i)
              (fun a b x => parse_label_strip_agrees .hierarchical a b x)
              0 _]
        · exact collect_strip _ Junction.stripId
            (fun i => g₁ 6 i) (fun i => g₂ 6 i)
            (fun a b x => parse_junction_strip_agrees a b x) 0 _
        · exact collect_strip _ NoConnect.stripId
            (fun i => g₁ 7 i) (fun i => g₂ 7 i)
            (fun a b x => parse_no_connect_strip_agrees a b x) 0 _
        · exact collect_strip _ PowerSymbol.stripId
            (fun i => g₁ 8 i) (fun i => g₂ 8 i)
            (fun a b x => parse_power_strip_agrees a b x) 0 _
        · exact collect_strip _ Bus.stripId
            (fun i => g₁ 9 i) (fun i => g₂ 9 i)
            (fun a b x => parse_bus_strip_agrees a b x) 0 _
      · intro hall
        obtain ⟨hdoc, hsym, hwire, hlab, hglab, hhlab, hjun, hnc, hbus⟩ :=
          hall
        obtain ⟨u, hu⟩ := Option.isSome_iff_exists.mp hdoc
        have hu' : ((e.find "uuid").bind (fun v => v.get_atom 1)).bind
            uuidParse = some u := hu
        simp only [SchematicSheet.mk.injEq]
        refine ⟨?_, rfl, ?_, ?_, ?_, ?_, ?_, ?_, ?_⟩
        · rw [hu']
        · exact collect_gen_eq _ (fun i => g₁ 1 i) (fun i => g₂ 1 i) 0 _
            (fun x hx fr₁ fr₂ => parse_symbol_supplied_eq x (hsym x hx)
              fr₁ fr₂)
        · exact collect_gen_eq _ (fun i => g₁ 2 i) (fun i => g₂ 2 i) 0 _
            (fun x hx fr₁ fr₂ => parse_wire_supplied_eq x (hwire x hx)
              fr₁ fr₂)
        · rw [collect_gen_eq _ (fun i => g₁ 3 i) (fun i => g₂ 3 i) 0 _
              (fun x hx fr₁ fr₂ => parse_label_supplied_eq .local x
                (hlab x hx) fr₁ fr₂),
            collect_gen_eq _ (fun i => g₁ 4 i) (fun i => g₂ 4 i) 0 _
              (fun x hx fr₁ fr₂ => parse_label_supplied_eq .global x
                (hglab x hx) fr₁ fr₂),
            collect_gen_eq _ (fun i => g₁ 5 i) (fun i => g₂ 5 i) 0 _
              (fun x hx fr₁ fr₂ => parse_label_supplied_eq .hierarchical x
                (hhlab x hx) fr₁ fr₂)]
        · exact collect_gen_eq _ (fun i => g₁ 6 i) (fun i => g₂ 6 i) 0 _
            (fun x hx fr₁ fr₂ => parse_junction_supplied_eq x (hjun x hx)
              fr₁ fr₂)
        · exact collect_gen_eq _ (fun i => g₁ 7 i) (fun i => g₂ 7 i) 0 _
            (fun x hx fr₁ fr₂ => parse_no_connect_supplied_eq x
              (hnc x hx) fr₁ fr₂)
        · exact collect_gen_eq _ (fun i => g₁ 8 i) (fun i => g₂ 8 i) 0 _
            (fun x hx fr₁ fr₂ => parse_power_supplied_eq x
              (hsym x (List.mem_of_mem_filter hx)) fr₁ fr₂)
        · exact collect_gen_eq _ (fun i => g₁ 9 i) (fun i => g₂ 9 i) 0 _
            (fun x hx fr₁ fr₂ => parse_bus_supplied_eq x (hbus x hx)
              fr₁ fr₂)
    · simp only [htag, ne_eq, not_false_eq_true, if_true, ite_true] at h₁
      cases h₁
  · intro cs₁ cs₂ h₁ h₂
    unfold KicadSymbolLibImporter.import_from_string at h₁ h₂
    cases hps : SExprParser.parse content with
    | error err => rw [hps] at h₁; cases h₁
    | ok expr =>
      rw [hps] at h₁ h₂
      by_cases htag : expr.tag = some "kicad_symbol_lib"
      · simp only [htag, ne_eq, not_true_eq_false, if_false, ite_false,
          Except.ok.injEq] at h₁ h₂
        subst h₁
        subst h₂
        exact collect_strip _ Component.stripId
          (fun i => g₁ 1 i) (fun i => g₂ 1 i)
          (fun a b x => lib_parse_symbol_strip_agrees a b x) 0 _
      · simp only [htag, ne_eq, not_false_eq_true, if_true, ite_true]
          at h₁
        cases h₁
  · intro l₁ l₂ h₁ h₂
    unfold KicadPcbImporter.import_from_string at h₁ h₂
    cases hps : SExprParser.parse content with
    | error err => rw [hps] at h₁; cases h₁
    | ok expr =>
      rw [hps] at h₁ h₂
      by_cases htag : expr.tag = some "kicad_pcb"
      · simp only [htag, ne_eq, not_true_eq_false, if_false, ite_false]
          at h₁ h₂
        have hcomp : (collectOk (mapWithIdx
            (fun i fe => KicadPcbImporter.parse_footprint (g₁ 1 i) fe) 0
            (expr.find_all "footprint"))).map PlacedComponent.stripId =
            (collectOk (mapWithIdx
            (fun i fe => KicadPcbImporter.parse_footprint (g₂ 1 i) fe) 0
            (expr.find_all "footprint"))).map PlacedComponent.stripId :=
          collect_strip _ PlacedComponent.stripId
            (fun i => g₁ 1 i) (fun i => g₂ 1 i)
            (fun a b x => parse_footprint_strip_agrees a b x) 0 _
        cases hl : expr.find "layers" with
        | none =>
          simp only [hl, Except.ok.injEq] at h₁ h₂
          subst h₁
          subst h₂
          simp only [Layout.stripIds, Layout.mk.injEq]
          exact ⟨trivial, trivial, hcomp, trivial, trivial, trivial⟩
        | some le =>
          obtain ⟨ls, hls⟩ := parse_layers_ok le
          simp only [hl, hls, Except.ok.injEq] at h₁ h₂
          subst h₁
          subst h₂
          simp only [Layout.stripIds, Layout.mk.injEq]
          exact ⟨trivial, trivial, hcomp, trivial, trivial, trivial⟩
      · simp only [htag, ne_eq, not_false_eq_true, if_true, ite_true]
          at h₁
        cases h₁

/-- A schematic whose one junction supplies no identifier. -/
def c8content : String := "(kicad_sch (junction))"

/-- The sheet imported from `c8content` with constant source "A". -/
def c8sheetA : SchematicSheet :=
  { id := "A", name := "Imported", symbols := [], wires := [],
    labels := [], junctions := [⟨"A", Point2D.new 0 0⟩],
    no_connects := [], power_symbols := [], buses := [] }

/-- The sheet imported from `c8content` with constant source "B". -/
def c8sheetB : SchematicSheet :=
  { id := "B", name := "Imported", symbols := [], wires := [],
    labels := [], junctions := [⟨"B", Point2D.new 0 0⟩],
    no_connects := [], power_symbols := [], buses := [] }

/-- A one-symbol library document. -/
def c8libContent : String := "(kicad_symbol_lib (symbol R))"

/-- The components imported from `c8libContent` with constant source
"A". -/
def c8libA : List Component :=
  [⟨"A", "R", "R", none, none, none, ⟨0, 0, none, .mm⟩, 0, [], []⟩]

/-- The components imported from `c8libContent` with constant source
"B". -/
def c8libB : List Component :=
  [⟨"B", "R", "R", none, none, none, ⟨0, 0, none, .mm⟩, 0, [], []⟩]

/-- A one-footprint PCB document. -/
def c8pcbContent : String := "(kicad_pcb (footprint R))"

/-- The layout imported from `c8pcbContent` with constant source "A". -/
def c8pcbA : Layout :=
  { outline := none, layers := Layout.default_pcb_layers,
    components := [⟨"A", "U?", "", "R", ⟨0, 0, none, .mm⟩, 0, .top, [],
      false⟩],
    traces := [], vias := [], zones := [] }

/-- The layout imported from `c8pcbContent` with constant source "B". -/
def c8pcbB : Layout :=
  { outline := none, layers := Layout.default_pcb_layers,
    components := [⟨"B", "U?", "", "R", ⟨0, 0, none, .mm⟩, 0, .top, [],
      false⟩],
    traces := [], vias := [], zones := [] }

/-- C8 witness: for each importer, the two imports of the same text under
different identifier sources differ only in generated identifiers — their
stripped forms coincide. -/
theorem c8_witness :
    c8sheetA.stripIds = c8sheetB.stripIds ∧
    c8libA.map Component.stripId = c8libB.map Component.stripId ∧
    c8pcbA.stripIds = c8pcbB.stripIds :=
  ⟨((c8_reimport_agreement c8content (fun _ _ => "A")
      (fun _ _ => "B")).1
      (.list [.atom "kicad_sch", .list [.atom "junction"]]) [] c8sheetA
      c8sheetB rfl (by with_unfolding_all rfl)
      (by with_unfolding_all rfl)).1,
   (c8_reimport_agreement c8libContent (fun _ _ => "A")
      (fun _ _ => "B")).2.1 c8libA c8libB (by with_unfolding_all rfl)
      (by with_unfolding_all rfl),
   (c8_reimport_agreement c8pcbContent (fun _ _ => "A")
      (fun _ _ => "B")).2.2 c8pcbA c8pcbB (by with_unfolding_all rfl)
      (by with_unfolding_all rfl)⟩
